/-
A verification development for the Soul Blazer logic-rule composition and
evaluation engine (worlds/soulblazer/Items.py and worlds/soulblazer/Rules.py):
the item/reward catalog with its Archipelago code encoding and pool
construction, and the chained access-rule engine with its flag evaluators
and the per-location dependency table.

Python data is embedded shallowly: dataclasses become structures, dicts
become ordered association lists with Python dict-literal/unpacking insert
semantics, and the short-circuit `and` used by compiled rules becomes a
monadic conjunction in `Except` so that an evaluator that raises can be
observed.  Identifier constants and the state/possession API live in
modules outside the given source (Names, BaseClasses, Util); those are
modelled from the spec and carry doc comments saying so.
-/
import Mathlib

set_option maxRecDepth 10000

namespace SoulBlazer

/-- Item classification from the surrounding multiworld infrastructure.
Modelled from the spec: `classification: enum{progression, useful, filler}`
(BaseClasses is outside the given source). -/
inductive IC where
  | progression
  | useful
  | filler
deriving DecidableEq, Repr
namespace ItemID
/-- Modelled from the spec: the reward-kind identifiers live in the Names.ItemID module, which is outside the given source; the spec only requires them to be distinct identifiers, so they are assigned sequentially in catalog order (likewise for the rest of this namespace, and for the two sentinel kinds and the victory kind, which get out-of-band values). -/
def LIFESWORD : Nat := 1
def PSYCHOSWORD : Nat := 2
def CRITICALSWORD : Nat := 3
def LUCKYBLADE : Nat := 4
def ZANTETSUSWORD : Nat := 5
def SPIRITSWORD : Nat := 6
def RECOVERYSWORD : Nat := 7
def SOULBLADE : Nat := 8
def IRONARMOR : Nat := 9
def ICEARMOR : Nat := 10
def BUBBLEARMOR : Nat := 11
def MAGICARMOR : Nat := 12
def MYSTICARMOR : Nat := 13
def LIGHTARMOR : Nat := 14
def ELEMENTALARMOR : Nat := 15
def SOULARMOR : Nat := 16
def FLAMEBALL : Nat := 17
def LIGHTARROW : Nat := 18
def MAGICFLARE : Nat := 19
def ROTATOR : Nat := 20
def SPARKBOMB : Nat := 21
def FLAMEPILLAR : Nat := 22
def TORNADO : Nat := 23
def PHOENIX : Nat := 24
def GOATSFOOD : Nat := 25
def HARPSTRING : Nat := 26
def APASS : Nat := 27
def DREAMROD : Nat := 28
def LEOSBRUSH : Nat := 29
def TURBOSLEAVES : Nat := 30
def MOLESRIBBON : Nat := 31
def BIGPEARL : Nat := 32
def MERMAIDSTEARS : Nat := 33
def MUSHROOMSHOES : Nat := 34
def AIRSHIPKEY : Nat := 35
def THUNDERRING : Nat := 36
def DELICIOUSSEEDS : Nat := 37
def ACTINIDIALEAVES : Nat := 38
def DOORKEY : Nat := 39
def PLATINUMCARD : Nat := 40
def VIPCARD : Nat := 41
def EMBLEMA : Nat := 42
def EMBLEMB : Nat := 43
def EMBLEMC : Nat := 44
def EMBLEMD : Nat := 45
def EMBLEME : Nat := 46
def EMBLEMF : Nat := 47
def EMBLEMG : Nat := 48
def EMBLEMH : Nat := 49
def REDHOTMIRROR : Nat := 50
def REDHOTBALL : Nat := 51
def REDHOTSTICK : Nat := 52
def POWERBRACELET : Nat := 53
def SHIELDBRACELET : Nat := 54
def SUPERBRACELET : Nat := 55
def MEDICALHERB : Nat := 56
def STRANGEBOTTLE : Nat := 57
def BROWNSTONE : Nat := 58
def GREENSTONE : Nat := 59
def BLUESTONE : Nat := 60
def SILVERSTONE : Nat := 61
def PURPLESTONE : Nat := 62
def BLACKSTONE : Nat := 63
def MAGICBELL : Nat := 64
def NOTHING : Nat := 65
def GEMS : Nat := 66
def EXP : Nat := 67
def LAIR_RELEASE : Nat := 200
def SOUL : Nat := 201
def VICTORY : Nat := 600
end ItemID

namespace LairID
/-- Modelled from the spec: the NPC-release (lair) identifiers live in the Names.LairID module, outside the given source; the spec only needs them distinct, so they are assigned sequentially (likewise for the rest of this namespace). -/
def OLD_WOMAN : Nat := 0
def TOOL_SHOP_OWNER : Nat := 1
def TULIP : Nat := 2
def BRIDGE_GUARD : Nat := 3
def VILLAGE_CHIEF : Nat := 4
def IVY_CHEST_ROOM : Nat := 5
def WATER_MILL : Nat := 6
def GOAT_HERB : Nat := 7
def LISA : Nat := 8
def TULIP2 : Nat := 9
def ARCHITECT : Nat := 10
def IVY : Nat := 11
def GOAT : Nat := 12
def TEDDY : Nat := 13
def TULIP3 : Nat := 14
def LEOS_HOUSE : Nat := 15
def LONELY_GOAT : Nat := 16
def TULIP_PASS : Nat := 17
def BOY_CABIN : Nat := 18
def BOY_CAVE : Nat := 19
def OLD_MAN : Nat := 20
def OLD_MAN2 : Nat := 21
def IVY2 : Nat := 22
def IVY_EMBLEM_A : Nat := 23
def IVY_RECOVERY_SWORD : Nat := 24
def TULIP4 : Nat := 25
def GOAT2 : Nat := 26
def BIRD_RED_HOT_MIRROR : Nat := 27
def BIRD : Nat := 28
def DOG : Nat := 29
def DOG2 : Nat := 30
def DOG3 : Nat := 31
def MOLE_SHIELD_BRACELET : Nat := 32
def SQUIRREL_EMBLEM_C : Nat := 33
def SQUIRREL_PSYCHO_SWORD : Nat := 34
def BIRD2 : Nat := 35
def MOLE_SOUL_OF_LIGHT : Nat := 36
def DEER : Nat := 37
def CROCODILE : Nat := 38
def SQUIRREL : Nat := 39
def GREENWOODS_GUARDIAN : Nat := 40
def MOLE : Nat := 41
def DOG4 : Nat := 42
def SQUIRREL_ICE_ARMOR : Nat := 43
def SQUIRREL2 : Nat := 44
def DOG5 : Nat := 45
def CROCODILE2 : Nat := 46
def MOLE2 : Nat := 47
def SQUIRREL3 : Nat := 48
def BIRD_GREENWOOD_LEAF : Nat := 49
def MOLE3 : Nat := 50
def DEER_MAGIC_BELL : Nat := 51
def BIRD3 : Nat := 52
def CROCODILE3 : Nat := 53
def MONMO : Nat := 54
def DOLPHIN : Nat := 55
def ANGELFISH : Nat := 56
def MERMAID : Nat := 57
def ANGELFISH2 : Nat := 58
def MERMAID_PEARL : Nat := 59
def MERMAID2 : Nat := 60
def DOLPHIN_SAVES_LUE : Nat := 61
def MERMAID_STATUE_BLESTER : Nat := 62
def MERMAID_RED_HOT_STICK : Nat := 63
def LUE : Nat := 64
def MERMAID3 : Nat := 65
def MERMAID_NANA : Nat := 66
def MERMAID4 : Nat := 67
def DOLPHIN2 : Nat := 68
def MERMAID_STATUE_ROCKBIRD : Nat := 69
def MERMAID_BUBBLE_ARMOR : Nat := 70
def MERMAID5 : Nat := 71
def MERMAID6 : Nat := 72
def MERMAID_TEARS : Nat := 73
def MERMAID_STATUE_DUREAN : Nat := 74
def ANGELFISH3 : Nat := 75
def ANGELFISH_SOUL_OF_SHIELD : Nat := 76
def MERMAID_MAGIC_FLARE : Nat := 77
def MERMAID_QUEEN : Nat := 78
def MERMAID_STATUE_GHOST_SHIP : Nat := 79
def DOLPHIN_SECRET_CAVE : Nat := 80
def MERMAID7 : Nat := 81
def ANGELFISH4 : Nat := 82
def MERMAID8 : Nat := 83
def DOLPHIN_PEARL : Nat := 84
def MERMAID9 : Nat := 85
def GRANDPA : Nat := 86
def GIRL : Nat := 87
def MUSHROOM : Nat := 88
def BOY : Nat := 89
def GRANDPA2 : Nat := 90
def SNAIL_JOCKEY : Nat := 91
def NOME : Nat := 92
def BOY2 : Nat := 93
def MUSHROOM_EMBLEM_F : Nat := 94
def DANCING_GRANDMA : Nat := 95
def DANCING_GRANDMA2 : Nat := 96
def SNAIL_EMBLEM_E : Nat := 97
def BOY_MUSHROOM_SHOES : Nat := 98
def GRANDMA : Nat := 99
def GIRL2 : Nat := 100
def MUSHROOM2 : Nat := 101
def SNAIL_RACER : Nat := 102
def SNAIL_RACER2 : Nat := 103
def GIRL3 : Nat := 104
def MUSHROOM3 : Nat := 105
def SNAIL : Nat := 106
def GRANDPA3 : Nat := 107
def SNAIL2 : Nat := 108
def GRANDPA4 : Nat := 109
def GRANDPA_LUNE : Nat := 110
def GRANDPA5 : Nat := 111
def MOUNTAIN_KING : Nat := 112
def PLANT_HERB : Nat := 113
def PLANT : Nat := 114
def CHEST_OF_DRAWERS_MYSTIC_ARMOR : Nat := 115
def CAT : Nat := 116
def GREAT_DOOR_ZANTETSU_SWORD : Nat := 117
def CAT2 : Nat := 118
def GREAT_DOOR : Nat := 119
def CAT3 : Nat := 120
def MODEL_TOWN1 : Nat := 121
def GREAT_DOOR_MODEL_TOWNS : Nat := 122
def STEPS_UPSTAIRS : Nat := 123
def CAT_DOOR_KEY : Nat := 124
def MOUSE : Nat := 125
def MARIE : Nat := 126
def DOLL : Nat := 127
def CHEST_OF_DRAWERS : Nat := 128
def PLANT2 : Nat := 129
def MOUSE2 : Nat := 130
def MOUSE_SPARK_BOMB : Nat := 131
def MOUSE3 : Nat := 132
def GREAT_DOOR_SOUL_OF_DETECTION : Nat := 133
def MODEL_TOWN2 : Nat := 134
def MOUSE4 : Nat := 135
def STEPS_MARIE : Nat := 136
def CHEST_OF_DRAWERS2 : Nat := 137
def PLANT_ACTINIDIA_LEAVES : Nat := 138
def MOUSE5 : Nat := 139
def CAT4 : Nat := 140
def STAIRS_POWER_PLANT : Nat := 141
def SOLDIER : Nat := 142
def SOLDIER2 : Nat := 143
def SOLDIER3 : Nat := 144
def SOLDIER_ELEMENTAL_MAIL : Nat := 145
def SOLDIER4 : Nat := 146
def SOLDIER5 : Nat := 147
def SINGER_CONCERT_HALL : Nat := 148
def SOLDIER6 : Nat := 149
def MAID : Nat := 150
def SOLDIER_LEFT_TOWER : Nat := 151
def SOLDIER_DOK : Nat := 152
def SOLDIER_PLATINUM_CARD : Nat := 153
def SINGER : Nat := 154
def SOLDIER_SOUL_OF_REALITY : Nat := 155
def MAID2 : Nat := 156
def QUEEN_MAGRIDD : Nat := 157
def SOLDIER_WITH_LEO : Nat := 158
def SOLDIER_RIGHT_TOWER : Nat := 159
def DR_LEO : Nat := 160
def SOLDIER7 : Nat := 161
def SOLDIER8 : Nat := 162
def MAID_HERB : Nat := 163
def SOLDIER_CASTLE : Nat := 164
def SOLDIER9 : Nat := 165
def SOLDIER10 : Nat := 166
def SOLDIER11 : Nat := 167
def KING_MAGRIDD : Nat := 168
end LairID

namespace ItemName
/-- Modelled from the spec: these display-name constants live in the Names module, outside the given source; the spec only requires distinct strings, so each is modelled as its identifier prefixed by a distinct character (likewise for the rest of this namespace). -/
def LIFESWORD : String := "\u0100LIFESWORD"
def PSYCHOSWORD : String := "\u0101PSYCHOSWORD"
def CRITICALSWORD : String := "\u0102CRITICALSWORD"
def LUCKYBLADE : String := "\u0103LUCKYBLADE"
def ZANTETSUSWORD : String := "\u0104ZANTETSUSWORD"
def SPIRITSWORD : String := "\u0105SPIRITSWORD"
def RECOVERYSWORD : String := "\u0106RECOVERYSWORD"
def SOULBLADE : String := "\u0107SOULBLADE"
def IRONARMOR : String := "\u0108IRONARMOR"
def ICEARMOR : String := "\u0109ICEARMOR"
def BUBBLEARMOR : String := "\u010aBUBBLEARMOR"
def MAGICARMOR : String := "\u010bMAGICARMOR"
def MYSTICARMOR : String := "\u010cMYSTICARMOR"
def LIGHTARMOR : String := "\u010dLIGHTARMOR"
def ELEMENTALARMOR : String := "\u010eELEMENTALARMOR"
def SOULARMOR : String := "\u010fSOULARMOR"
def FLAMEBALL : String := "\u0110FLAMEBALL"
def LIGHTARROW : String := "\u0111LIGHTARROW"
def MAGICFLARE : String := "\u0112MAGICFLARE"
def ROTATOR : String := "\u0113ROTATOR"
def SPARKBOMB : String := "\u0114SPARKBOMB"
def FLAMEPILLAR : String := "\u0115FLAMEPILLAR"
def TORNADO : String := "\u0116TORNADO"
def PHOENIX : String := "\u0117PHOENIX"
def GOATSFOOD : String := "\u0118GOATSFOOD"
def HARPSTRING : String := "\u0119HARPSTRING"
def APASS : String := "\u011aAPASS"
def DREAMROD : String := "\u011bDREAMROD"
def LEOSBRUSH : String := "\u011cLEOSBRUSH"
def TURBOSLEAVES : String := "\u011dTURBOSLEAVES"
def MOLESRIBBON : String := "\u011eMOLESRIBBON"
def BIGPEARL : String := "\u011fBIGPEARL"
def MERMAIDSTEARS : String := "\u0120MERMAIDSTEARS"
def MUSHROOMSHOES : String := "\u0121MUSHROOMSHOES"
def AIRSHIPKEY : String := "\u0122AIRSHIPKEY"
def THUNDERRING : String := "\u0123THUNDERRING"
def DELICIOUSSEEDS : String := "\u0124DELICIOUSSEEDS"
def ACTINIDIALEAVES : String := "\u0125ACTINIDIALEAVES"
def DOORKEY : String := "\u0126DOORKEY"
def PLATINUMCARD : String := "\u0127PLATINUMCARD"
def VIPCARD : String := "\u0128VIPCARD"
def EMBLEMA : String := "\u0129EMBLEMA"
def EMBLEMB : String := "\u012aEMBLEMB"
def EMBLEMC : String := "\u012bEMBLEMC"
def EMBLEMD : String := "\u012cEMBLEMD"
def EMBLEME : String := "\u012dEMBLEME"
def EMBLEMF : String := "\u012eEMBLEMF"
def EMBLEMG : String := "\u012fEMBLEMG"
def EMBLEMH : String := "\u0130EMBLEMH"
def REDHOTMIRROR : String := "\u0131REDHOTMIRROR"
def REDHOTBALL : String := "\u0132REDHOTBALL"
def REDHOTSTICK : String := "\u0133REDHOTSTICK"
def POWERBRACELET : String := "\u0134POWERBRACELET"
def SHIELDBRACELET : String := "\u0135SHIELDBRACELET"
def SUPERBRACELET : String := "\u0136SUPERBRACELET"
def MEDICALHERB : String := "\u0137MEDICALHERB"
def STRANGEBOTTLE : String := "\u0138STRANGEBOTTLE"
def BROWNSTONE : String := "\u0139BROWNSTONE"
def GREENSTONE : String := "\u013aGREENSTONE"
def BLUESTONE : String := "\u013bBLUESTONE"
def SILVERSTONE : String := "\u013cSILVERSTONE"
def PURPLESTONE : String := "\u013dPURPLESTONE"
def BLACKSTONE : String := "\u013eBLACKSTONE"
def MAGICBELL : String := "\u013fMAGICBELL"
def NOTHING : String := "\u0140NOTHING"
def GEMS : String := "\u0141GEMS"
def EXP : String := "\u0142EXP"
def SOUL_MAGICIAN : String := "\u01ecSOUL_MAGICIAN"
def SOUL_LIGHT : String := "\u01edSOUL_LIGHT"
def SOUL_SHIELD : String := "\u01eeSOUL_SHIELD"
def SOUL_DETECTION : String := "\u01efSOUL_DETECTION"
def SOUL_REALITY : String := "\u01f0SOUL_REALITY"
def VICTORY : String := "\u01f1VICTORY"
end ItemName

namespace NPCName
/-- Modelled from the spec: these display-name constants live in the Names module, outside the given source; the spec only requires distinct strings, so each is modelled as its identifier prefixed by a distinct character (likewise for the rest of this namespace). -/
def OLD_WOMAN : String := "\u0143OLD_WOMAN"
def TOOL_SHOP_OWNER : String := "\u0144TOOL_SHOP_OWNER"
def TULIP : String := "\u0145TULIP"
def BRIDGE_GUARD : String := "\u0146BRIDGE_GUARD"
def VILLAGE_CHIEF : String := "\u0147VILLAGE_CHIEF"
def IVY_CHEST_ROOM : String := "\u0148IVY_CHEST_ROOM"
def WATER_MILL : String := "\u0149WATER_MILL"
def GOAT_HERB : String := "\u014aGOAT_HERB"
def LISA : String := "\u014bLISA"
def TULIP2 : String := "\u014cTULIP2"
def ARCHITECT : String := "\u014dARCHITECT"
def IVY : String := "\u014eIVY"
def GOAT : String := "\u014fGOAT"
def TEDDY : String := "\u0150TEDDY"
def TULIP3 : String := "\u0151TULIP3"
def LEOS_HOUSE : String := "\u0152LEOS_HOUSE"
def LONELY_GOAT : String := "\u0153LONELY_GOAT"
def TULIP_PASS : String := "\u0154TULIP_PASS"
def BOY_CABIN : String := "\u0155BOY_CABIN"
def BOY_CAVE : String := "\u0156BOY_CAVE"
def OLD_MAN : String := "\u0157OLD_MAN"
def OLD_MAN2 : String := "\u0158OLD_MAN2"
def IVY2 : String := "\u0159IVY2"
def IVY_EMBLEM_A : String := "\u015aIVY_EMBLEM_A"
def IVY_RECOVERY_SWORD : String := "\u015bIVY_RECOVERY_SWORD"
def TULIP4 : String := "\u015cTULIP4"
def GOAT2 : String := "\u015dGOAT2"
def BIRD_RED_HOT_MIRROR : String := "\u015eBIRD_RED_HOT_MIRROR"
def BIRD : String := "\u015fBIRD"
def DOG : String := "\u0160DOG"
def DOG2 : String := "\u0161DOG2"
def DOG3 : String := "\u0162DOG3"
def MOLE_SHIELD_BRACELET : String := "\u0163MOLE_SHIELD_BRACELET"
def SQUIRREL_EMBLEM_C : String := "\u0164SQUIRREL_EMBLEM_C"
def SQUIRREL_PSYCHO_SWORD : String := "\u0165SQUIRREL_PSYCHO_SWORD"
def BIRD2 : String := "\u0166BIRD2"
def MOLE_SOUL_OF_LIGHT : String := "\u0167MOLE_SOUL_OF_LIGHT"
def DEER : String := "\u0168DEER"
def CROCODILE : String := "\u0169CROCODILE"
def SQUIRREL : String := "\u016aSQUIRREL"
def GREENWOODS_GUARDIAN : String := "\u016bGREENWOODS_GUARDIAN"
def MOLE : String := "\u016cMOLE"
def DOG4 : String := "\u016dDOG4"
def SQUIRREL_ICE_ARMOR : String := "\u016eSQUIRREL_ICE_ARMOR"
def SQUIRREL2 : String := "\u016fSQUIRREL2"
def DOG5 : String := "\u0170DOG5"
def CROCODILE2 : String := "\u0171CROCODILE2"
def MOLE2 : String := "\u0172MOLE2"
def SQUIRREL3 : String := "\u0173SQUIRREL3"
def BIRD_GREENWOOD_LEAF : String := "\u0174BIRD_GREENWOOD_LEAF"
def MOLE3 : String := "\u0175MOLE3"
def DEER_MAGIC_BELL : String := "\u0176DEER_MAGIC_BELL"
def BIRD3 : String := "\u0177BIRD3"
def CROCODILE3 : String := "\u0178CROCODILE3"
def MONMO : String := "\u0179MONMO"
def DOLPHIN : String := "\u017aDOLPHIN"
def ANGELFISH : String := "\u017bANGELFISH"
def MERMAID : String := "\u017cMERMAID"
def ANGELFISH2 : String := "\u017dANGELFISH2"
def MERMAID_PEARL : String := "\u017eMERMAID_PEARL"
def MERMAID2 : String := "\u017fMERMAID2"
def DOLPHIN_SAVES_LUE : String := "\u0180DOLPHIN_SAVES_LUE"
def MERMAID_STATUE_BLESTER : String := "\u0181MERMAID_STATUE_BLESTER"
def MERMAID_RED_HOT_STICK : String := "\u0182MERMAID_RED_HOT_STICK"
def LUE : String := "\u0183LUE"
def MERMAID3 : String := "\u0184MERMAID3"
def MERMAID_NANA : String := "\u0185MERMAID_NANA"
def MERMAID4 : String := "\u0186MERMAID4"
def DOLPHIN2 : String := "\u0187DOLPHIN2"
def MERMAID_STATUE_ROCKBIRD : String := "\u0188MERMAID_STATUE_ROCKBIRD"
def MERMAID_BUBBLE_ARMOR : String := "\u0189MERMAID_BUBBLE_ARMOR"
def MERMAID5 : String := "\u018aMERMAID5"
def MERMAID6 : String := "\u018bMERMAID6"
def MERMAID_TEARS : String := "\u018cMERMAID_TEARS"
def MERMAID_STATUE_DUREAN : String := "\u018dMERMAID_STATUE_DUREAN"
def ANGELFISH3 : String := "\u018eANGELFISH3"
def ANGELFISH_SOUL_OF_SHIELD : String := "\u018fANGELFISH_SOUL_OF_SHIELD"
def MERMAID_MAGIC_FLARE : String := "\u0190MERMAID_MAGIC_FLARE"
def MERMAID_QUEEN : String := "\u0191MERMAID_QUEEN"
def MERMAID_STATUE_GHOST_SHIP : String := "\u0192MERMAID_STATUE_GHOST_SHIP"
def DOLPHIN_SECRET_CAVE : String := "\u0193DOLPHIN_SECRET_CAVE"
def MERMAID7 : String := "\u0194MERMAID7"
def ANGELFISH4 : String := "\u0195ANGELFISH4"
def MERMAID8 : String := "\u0196MERMAID8"
def DOLPHIN_PEARL : String := "\u0197DOLPHIN_PEARL"
def MERMAID9 : String := "\u0198MERMAID9"
def GRANDPA : String := "\u0199GRANDPA"
def GIRL : String := "\u019aGIRL"
def MUSHROOM : String := "\u019bMUSHROOM"
def BOY : String := "\u019cBOY"
def GRANDPA2 : String := "\u019dGRANDPA2"
def SNAIL_JOCKEY : String := "\u019eSNAIL_JOCKEY"
def NOME : String := "\u019fNOME"
def BOY2 : String := "\u01a0BOY2"
def MUSHROOM_EMBLEM_F : String := "\u01a1MUSHROOM_EMBLEM_F"
def DANCING_GRANDMA : String := "\u01a2DANCING_GRANDMA"
def DANCING_GRANDMA2 : String := "\u01a3DANCING_GRANDMA2"
def SNAIL_EMBLEM_E : String := "\u01a4SNAIL_EMBLEM_E"
def BOY_MUSHROOM_SHOES : String := "\u01a5BOY_MUSHROOM_SHOES"
def GRANDMA : String := "\u01a6GRANDMA"
def GIRL2 : String := "\u01a7GIRL2"
def MUSHROOM2 : String := "\u01a8MUSHROOM2"
def SNAIL_RACER : String := "\u01a9SNAIL_RACER"
def SNAIL_RACER2 : String := "\u01aaSNAIL_RACER2"
def GIRL3 : String := "\u01abGIRL3"
def MUSHROOM3 : String := "\u01acMUSHROOM3"
def SNAIL : String := "\u01adSNAIL"
def GRANDPA3 : String := "\u01aeGRANDPA3"
def SNAIL2 : String := "\u01afSNAIL2"
def GRANDPA4 : String := "\u01b0GRANDPA4"
def GRANDPA_LUNE : String := "\u01b1GRANDPA_LUNE"
def GRANDPA5 : String := "\u01b2GRANDPA5"
def MOUNTAIN_KING : String := "\u01b3MOUNTAIN_KING"
def PLANT_HERB : String := "\u01b4PLANT_HERB"
def PLANT : String := "\u01b5PLANT"
def CHEST_OF_DRAWERS_MYSTIC_ARMOR : String := "\u01b6CHEST_OF_DRAWERS_MYSTIC_ARMOR"
def CAT : String := "\u01b7CAT"
def GREAT_DOOR_ZANTETSU_SWORD : String := "\u01b8GREAT_DOOR_ZANTETSU_SWORD"
def CAT2 : String := "\u01b9CAT2"
def GREAT_DOOR : String := "\u01baGREAT_DOOR"
def CAT3 : String := "\u01bbCAT3"
def MODEL_TOWN1 : String := "\u01bcMODEL_TOWN1"
def GREAT_DOOR_MODEL_TOWNS : String := "\u01bdGREAT_DOOR_MODEL_TOWNS"
def STEPS_UPSTAIRS : String := "\u01beSTEPS_UPSTAIRS"
def CAT_DOOR_KEY : String := "\u01bfCAT_DOOR_KEY"
def MOUSE : String := "\u01c0MOUSE"
def MARIE : String := "\u01c1MARIE"
def DOLL : String := "\u01c2DOLL"
def CHEST_OF_DRAWERS : String := "\u01c3CHEST_OF_DRAWERS"
def PLANT2 : String := "\u01c4PLANT2"
def MOUSE2 : String := "\u01c5MOUSE2"
def MOUSE_SPARK_BOMB : String := "\u01c6MOUSE_SPARK_BOMB"
def MOUSE3 : String := "\u01c7MOUSE3"
def GREAT_DOOR_SOUL_OF_DETECTION : String := "\u01c8GREAT_DOOR_SOUL_OF_DETECTION"
def MODEL_TOWN2 : String := "\u01c9MODEL_TOWN2"
def MOUSE4 : String := "\u01caMOUSE4"
def STEPS_MARIE : String := "\u01cbSTEPS_MARIE"
def CHEST_OF_DRAWERS2 : String := "\u01ccCHEST_OF_DRAWERS2"
def PLANT_ACTINIDIA_LEAVES : String := "\u01cdPLANT_ACTINIDIA_LEAVES"
def MOUSE5 : String := "\u01ceMOUSE5"
def CAT4 : String := "\u01cfCAT4"
def STAIRS_POWER_PLANT : String := "\u01d0STAIRS_POWER_PLANT"
def SOLDIER : String := "\u01d1SOLDIER"
def SOLDIER2 : String := "\u01d2SOLDIER2"
def SOLDIER3 : String := "\u01d3SOLDIER3"
def SOLDIER_ELEMENTAL_MAIL : String := "\u01d4SOLDIER_ELEMENTAL_MAIL"
def SOLDIER4 : String := "\u01d5SOLDIER4"
def SOLDIER5 : String := "\u01d6SOLDIER5"
def SINGER_CONCERT_HALL : String := "\u01d7SINGER_CONCERT_HALL"
def SOLDIER6 : String := "\u01d8SOLDIER6"
def MAID : String := "\u01d9MAID"
def SOLDIER_LEFT_TOWER : String := "\u01daSOLDIER_LEFT_TOWER"
def SOLDIER_DOK : String := "\u01dbSOLDIER_DOK"
def SOLDIER_PLATINUM_CARD : String := "\u01dcSOLDIER_PLATINUM_CARD"
def SINGER : String := "\u01ddSINGER"
def SOLDIER_SOUL_OF_REALITY : String := "\u01deSOLDIER_SOUL_OF_REALITY"
def MAID2 : String := "\u01dfMAID2"
def QUEEN_MAGRIDD : String := "\u01e0QUEEN_MAGRIDD"
def SOLDIER_WITH_LEO : String := "\u01e1SOLDIER_WITH_LEO"
def SOLDIER_RIGHT_TOWER : String := "\u01e2SOLDIER_RIGHT_TOWER"
def DR_LEO : String := "\u01e3DR_LEO"
def SOLDIER7 : String := "\u01e4SOLDIER7"
def SOLDIER8 : String := "\u01e5SOLDIER8"
def MAID_HERB : String := "\u01e6MAID_HERB"
def SOLDIER_CASTLE : String := "\u01e7SOLDIER_CASTLE"
def SOLDIER9 : String := "\u01e8SOLDIER9"
def SOLDIER10 : String := "\u01e9SOLDIER10"
def SOLDIER11 : String := "\u01eaSOLDIER11"
def KING_MAGRIDD : String := "\u01ebKING_MAGRIDD"
end NPCName

namespace NPCRewardName
/-- Modelled from the spec: these display-name constants live in the Names module, outside the given source; the spec only requires distinct strings, so each is modelled as its identifier prefixed by a distinct character (likewise for the rest of this namespace). -/
def MOUNTAIN_KING : String := "\u0400MOUNTAIN_KING"
def TOOL_SHOP_OWNER : String := "\u0401TOOL_SHOP_OWNER"
def EMBLEM_A_TILE : String := "\u0402EMBLEM_A_TILE"
def GOAT_PEN_CORNER : String := "\u0403GOAT_PEN_CORNER"
def TEDDY : String := "\u0404TEDDY"
def PASS_TILE : String := "\u0405PASS_TILE"
def TILE_IN_CHILDS_SECRET_CAVE : String := "\u0406TILE_IN_CHILDS_SECRET_CAVE"
def RECOVERY_SWORD_CRYSTAL : String := "\u0407RECOVERY_SWORD_CRYSTAL"
def VILLAGE_CHIEF : String := "\u0408VILLAGE_CHIEF"
def MAGICIAN : String := "\u0409MAGICIAN"
def MAGICIAN_SOUL : String := "\u040aMAGICIAN_SOUL"
def REDHOT_MIRROR_BIRD : String := "\u0410REDHOT_MIRROR_BIRD"
def MAGIC_BELL_CRYSTAL : String := "\u0411MAGIC_BELL_CRYSTAL"
def WOODSTIN_TRIO : String := "\u0412WOODSTIN_TRIO"
def GREENWOOD_LEAVES_TILE : String := "\u0413GREENWOOD_LEAVES_TILE"
def SHIELD_BRACELET_MOLE : String := "\u0414SHIELD_BRACELET_MOLE"
def PSYCHO_SWORD_SQUIRREL : String := "\u0415PSYCHO_SWORD_SQUIRREL"
def EMBLEM_C_SQUIRREL : String := "\u0416EMBLEM_C_SQUIRREL"
def GREENWOODS_GUARDIAN : String := "\u0417GREENWOODS_GUARDIAN"
def FIRE_SHRINE_CRYSTAL : String := "\u0418FIRE_SHRINE_CRYSTAL"
def MOLE_SOUL_OF_LIGHT : String := "\u0419MOLE_SOUL_OF_LIGHT"
def NORTHEASTERN_MERMAID_HERB : String := "\u0420NORTHEASTERN_MERMAID_HERB"
def MAGIC_FLARE_MERMAID : String := "\u0421MAGIC_FLARE_MERMAID"
def REDHOT_STICK_MERMAID : String := "\u0422REDHOT_STICK_MERMAID"
def LUE : String := "\u0423LUE"
def MERMAID_QUEEN : String := "\u0424MERMAID_QUEEN"
def ANGELFISH_SOUL_OF_SHIELD : String := "\u0425ANGELFISH_SOUL_OF_SHIELD"
def MUSHROOM_SHOES_BOY : String := "\u042bMUSHROOM_SHOES_BOY"
def EMBLEM_E_SNAIL : String := "\u042cEMBLEM_E_SNAIL"
def EMBLEM_F_TILE : String := "\u042dEMBLEM_F_TILE"
def EMBLEM_G_UNDER_CHEST_OF_DRAWERS : String := "\u042fEMBLEM_G_UNDER_CHEST_OF_DRAWERS"
def CHEST_OF_DRAWERS_MYSTIC_ARMOR : String := "\u0430CHEST_OF_DRAWERS_MYSTIC_ARMOR"
def HERB_PLANT_IN_LEOS_LAB : String := "\u0431HERB_PLANT_IN_LEOS_LAB"
def SPARK_BOMB_MOUSE : String := "\u0432SPARK_BOMB_MOUSE"
def LEOS_CAT_DOOR_KEY : String := "\u0433LEOS_CAT_DOOR_KEY"
def ACTINIDIA_PLANT : String := "\u0434ACTINIDIA_PLANT"
def CHEST_OF_DRAWERS_HERB : String := "\u0435CHEST_OF_DRAWERS_HERB"
def MARIE : String := "\u0436MARIE"
def POWER_PLANT_CRYSTAL : String := "\u0437POWER_PLANT_CRYSTAL"
def GREAT_DOOR_SOUL_OF_DETECTION : String := "\u0438GREAT_DOOR_SOUL_OF_DETECTION"
def ELEMENTAL_MAIL_SOLDIER : String := "\u0448ELEMENTAL_MAIL_SOLDIER"
def SUPER_BRACELET_TILE : String := "\u0449SUPER_BRACELET_TILE"
def QUEEN_MAGRIDD_VIP_CARD : String := "\u044aQUEEN_MAGRIDD_VIP_CARD"
def PLATINUM_CARD_SOLDIER : String := "\u044bPLATINUM_CARD_SOLDIER"
def MAID_HERB : String := "\u044cMAID_HERB"
def EMBLEM_H_TILE : String := "\u044dEMBLEM_H_TILE"
def KING_MAGRIDD : String := "\u044eKING_MAGRIDD"
def SOLDIER_SOUL_OF_REALITY : String := "\u044fSOLDIER_SOUL_OF_REALITY"
end NPCRewardName

namespace LairName
/-- Modelled from the spec: these display-name constants live in the Names module, outside the given source; the spec only requires distinct strings, so each is modelled as its identifier prefixed by a distinct character (likewise for the rest of this namespace). -/
def OLD_MAN : String := "\u040bOLD_MAN"
def IVY_EMBLEM_A : String := "\u040cIVY_EMBLEM_A"
def IVY_RECOVERY_SWORD : String := "\u040dIVY_RECOVERY_SWORD"
def BIRD_RED_HOT_MIRROR : String := "\u041aBIRD_RED_HOT_MIRROR"
def BIRD3 : String := "\u041bBIRD3"
def MERMAID_RED_HOT_STICK : String := "\u0426MERMAID_RED_HOT_STICK"
def MERMAID3 : String := "\u0427MERMAID3"
def MERMAID_STATUE_BLESTER : String := "\u0428MERMAID_STATUE_BLESTER"
def MERMAID_STATUE_GHOST_SHIP : String := "\u0429MERMAID_STATUE_GHOST_SHIP"
def SNAIL_EMBLEM_E : String := "\u042eSNAIL_EMBLEM_E"
def PLANT_HERB : String := "\u0439PLANT_HERB"
def CHEST_OF_DRAWERS_MYSTIC_ARMOR : String := "\u043aCHEST_OF_DRAWERS_MYSTIC_ARMOR"
def CAT2 : String := "\u043bCAT2"
def GREAT_DOOR : String := "\u043cGREAT_DOOR"
def GREAT_DOOR_MODEL_TOWNS : String := "\u043dGREAT_DOOR_MODEL_TOWNS"
def STEPS_UPSTAIRS : String := "\u043eSTEPS_UPSTAIRS"
def MOUSE : String := "\u043fMOUSE"
def DOLL : String := "\u0440DOLL"
def MARIE : String := "\u0441MARIE"
def MOUSE_SPARK_BOMB : String := "\u0442MOUSE_SPARK_BOMB"
def MOUSE3 : String := "\u0443MOUSE3"
def MODEL_TOWN2 : String := "\u0444MODEL_TOWN2"
def MOUSE4 : String := "\u0445MOUSE4"
def STEPS_MARIE : String := "\u0446STEPS_MARIE"
def SOLDIER2 : String := "\u0450SOLDIER2"
def SOLDIER3 : String := "\u0451SOLDIER3"
def SOLDIER_ELEMENTAL_MAIL : String := "\u0452SOLDIER_ELEMENTAL_MAIL"
def SOLDIER4 : String := "\u0453SOLDIER4"
def SINGER_CONCERT_HALL : String := "\u0454SINGER_CONCERT_HALL"
def MAID : String := "\u0455MAID"
def SOLDIER_PLATINUM_CARD : String := "\u0456SOLDIER_PLATINUM_CARD"
def SINGER : String := "\u0457SINGER"
def KING_MAGRIDD : String := "\u0458KING_MAGRIDD"
end LairName

namespace ChestName
/-- Modelled from the spec: these display-name constants live in the Names module, outside the given source; the spec only requires distinct strings, so each is modelled as its identifier prefixed by a distinct character (likewise for the rest of this namespace). -/
def UNDERGROUND_CASTLE_LEOS_BRUSH : String := "\u040eUNDERGROUND_CASTLE_LEOS_BRUSH"
def LEOS_PAINTING_TORNADO : String := "\u040fLEOS_PAINTING_TORNADO"
def GREENWOOD_ICE_ARMOR : String := "\u041cGREENWOOD_ICE_ARMOR"
def GREENWOOD_TUNNELS : String := "\u041dGREENWOOD_TUNNELS"
def FIRE_SHRINE_2_SCORPION : String := "\u041eFIRE_SHRINE_2_SCORPION"
def LIGHT_SHRINE : String := "\u041fLIGHT_SHRINE"
def DUREAN_CRITICAL_SWORD : String := "\u042aDUREAN_CRITICAL_SWORD"
def POWER_PLANT_LIGHT_ARMOR : String := "\u0447POWER_PLANT_LIGHT_ARMOR"
def WOE_1_SE : String := "\u0459WOE_1_SE"
def WOE_1_SW : String := "\u045aWOE_1_SW"
def WOE_1_REDHOT_BALL : String := "\u045bWOE_1_REDHOT_BALL"
def DAZZLING_SPACE_SE : String := "\u045cDAZZLING_SPACE_SE"
def DAZZLING_SPACE_SW : String := "\u045dDAZZLING_SPACE_SW"
end ChestName

/-- Modelled from the spec: the Archipelago base offset from
Names.ArchipelagoID, outside the given source; the spec only requires a
fixed base offset, so a concrete value is chosen. -/
def BASE_ID : Nat := 5000

/-- Modelled from the spec: the NPC-release category offset from
Names.ArchipelagoID, outside the given source; chosen so that the lair code
range does not overlap the plain item-id range. -/
def LAIR_ID_OFFSET : Nat := 256

/-- Modelled from the spec: the soul-upgrade category offset from
Names.ArchipelagoID, outside the given source; chosen so that the soul code
range does not overlap the other ranges. -/
def SOUL_OFFSET : Nat := 512

/-- Modelled from the spec: Util.int_to_bcd (outside the given source) packs
a decimal number into binary-coded decimal nibbles. -/
def int_to_bcd : Nat → Nat
  | 0 => 0
  | n + 1 => (int_to_bcd ((n + 1) / 10)) * 16 + (n + 1) % 10

/-- The frozen `ItemData` dataclass of Items.py: internal item id, operand
(gems/exp quantity or lair id), and classification. -/
structure ItemData where
  id : Nat
  operand : Nat
  classification : IC
deriving DecidableEq, Repr

/-- `ItemData.duplicate`: returns a copy of this ItemData with the operand
changed (`dataclasses.replace`; the only field ever overridden at a call
site is `operand`). -/
def ItemData.duplicate (d : ItemData) (operand : Nat) : ItemData :=
  ⟨d.id, operand, d.classification⟩

/-- `ItemData.code`: the unique ID used by Archipelago for this item. -/
def ItemData.code (d : ItemData) : Nat :=
  if d.id = ItemID.LAIR_RELEASE then BASE_ID + LAIR_ID_OFFSET + d.operand
  else if d.id = ItemID.SOUL then BASE_ID + SOUL_OFFSET + d.operand
  else BASE_ID + d.id

/-- `ItemData.operand_bcd` property. -/
def ItemData.operand_bcd (d : ItemData) : Nat :=
  int_to_bcd d.operand

/-- `ItemData.operand_for_id` property. -/
def ItemData.operand_for_id (d : ItemData) : Nat :=
  if d.id = ItemID.GEMS ∨ d.id = ItemID.EXP then d.operand_bcd else d.operand

/-- Python dict assignment `d[k] = v`: overwrite in place if the key is
present (keeping its position), append otherwise. -/
def dictInsert (d : List (String × α)) (k : String) (v : α) : List (String × α) :=
  if d.any (fun p => p.1 = k) then
    d.map (fun p => if p.1 = k then (k, v) else p)
  else
    d ++ [(k, v)]

/-- A Python dict literal (with `**` unpacking splices flattened into the
entry list): entries inserted left to right, later duplicates silently
overwriting earlier ones. -/
def mkDict (entries : List (String × α)) : List (String × α) :=
  entries.foldl (fun d p => dictInsert d p.1 p.2) []

/-- Python `{**a, **b}` merge: insert every entry of `b` into `a` in order. -/
def pyMerge (a b : List (String × α)) : List (String × α) :=
  b.foldl (fun d p => dictInsert d p.1 p.2) a

/-- Python `d[k]` lookup (the call sites used below all have the key
present; a missing key would raise, modelled by a default). -/
def dictLookup (d : List (String × ItemData)) (k : String) : ItemData :=
  (d.find? (fun p => p.1 = k)).map Prod.snd |>.getD ⟨0, 0, IC.filler⟩

/-- Python `d.get(k, default)`. -/
def dictGet (d : List (String × α)) (k : String) (default : α) : α :=
  (d.find? (fun p => p.1 = k)).map Prod.snd |>.getD default

/-- Strict sortedness check used to certify key distinctness in linear
time (the modelled identifier strings are assigned in increasing order of
their first character precisely so that this check applies). -/
def sortedB : List Nat → Bool
  | [] => true
  | [_] => true
  | a :: b :: rest => decide (a < b) && sortedB (b :: rest)

/-- First-character code of a key string (the modelled names have pairwise
distinct first characters). -/
def keyOrd (s : String) : Nat :=
  (s.data.headD (Char.ofNat 0)).toNat
/-- The `swords_table` dict literal of Items.py: its entry sequence (with any unpacking splices referencing the spliced tables). -/
def swords_table_src : List (String × ItemData) :=
  [(ItemName.LIFESWORD, ItemData.mk ItemID.LIFESWORD 0 IC.progression),
    (ItemName.PSYCHOSWORD, ItemData.mk ItemID.PSYCHOSWORD 0 IC.progression),
    (ItemName.CRITICALSWORD, ItemData.mk ItemID.CRITICALSWORD 0 IC.progression),
    (ItemName.LUCKYBLADE, ItemData.mk ItemID.LUCKYBLADE 0 IC.progression),
    (ItemName.ZANTETSUSWORD, ItemData.mk ItemID.ZANTETSUSWORD 0 IC.progression),
    (ItemName.SPIRITSWORD, ItemData.mk ItemID.SPIRITSWORD 0 IC.progression),
    (ItemName.RECOVERYSWORD, ItemData.mk ItemID.RECOVERYSWORD 0 IC.progression),
    (ItemName.SOULBLADE, ItemData.mk ItemID.SOULBLADE 0 IC.progression)]

/-- `swords_table`: the dict built from the entry sequence. -/
def swords_table : List (String × ItemData) :=
  mkDict swords_table_src

/-- The fully summed-out form of `swords_table` (proved equal to it below). -/
def swords_table_lit : List (String × ItemData) :=
  swords_table_src

/-- The `armors_table` dict literal of Items.py: its entry sequence (with any unpacking splices referencing the spliced tables). -/
def armors_table_src : List (String × ItemData) :=
  [(ItemName.IRONARMOR, ItemData.mk ItemID.IRONARMOR 0 IC.useful),
    (ItemName.ICEARMOR, ItemData.mk ItemID.ICEARMOR 0 IC.progression),
    (ItemName.BUBBLEARMOR, ItemData.mk ItemID.BUBBLEARMOR 0 IC.progression),
    (ItemName.MAGICARMOR, ItemData.mk ItemID.MAGICARMOR 0 IC.useful),
    (ItemName.MYSTICARMOR, ItemData.mk ItemID.MYSTICARMOR 0 IC.useful),
    (ItemName.LIGHTARMOR, ItemData.mk ItemID.LIGHTARMOR 0 IC.useful),
    (ItemName.ELEMENTALARMOR, ItemData.mk ItemID.ELEMENTALARMOR 0 IC.useful),
    (ItemName.SOULARMOR, ItemData.mk ItemID.SOULARMOR 0 IC.progression)]

/-- `armors_table`: the dict built from the entry sequence. -/
def armors_table : List (String × ItemData) :=
  mkDict armors_table_src

/-- The fully summed-out form of `armors_table` (proved equal to it below). -/
def armors_table_lit : List (String × ItemData) :=
  armors_table_src

/-- The `castable_magic_table` dict literal of Items.py: its entry sequence (with any unpacking splices referencing the spliced tables). -/
def castable_magic_table_src : List (String × ItemData) :=
  [(ItemName.FLAMEBALL, ItemData.mk ItemID.FLAMEBALL 0 IC.progression),
    (ItemName.LIGHTARROW, ItemData.mk ItemID.LIGHTARROW 0 IC.progression),
    (ItemName.MAGICFLARE, ItemData.mk ItemID.MAGICFLARE 0 IC.progression),
    (ItemName.ROTATOR, ItemData.mk ItemID.ROTATOR 0 IC.progression),
    (ItemName.SPARKBOMB, ItemData.mk ItemID.SPARKBOMB 0 IC.progression),
    (ItemName.FLAMEPILLAR, ItemData.mk ItemID.FLAMEPILLAR 0 IC.progression),
    (ItemName.TORNADO, ItemData.mk ItemID.TORNADO 0 IC.progression)]

/-- `castable_magic_table`: the dict built from the entry sequence. -/
def castable_magic_table : List (String × ItemData) :=
  mkDict castable_magic_table_src

/-- The fully summed-out form of `castable_magic_table` (proved equal to it below). -/
def castable_magic_table_lit : List (String × ItemData) :=
  castable_magic_table_src

/-- The `magic_table` dict literal of Items.py: its entry sequence (with any unpacking splices referencing the spliced tables). -/
def magic_table_src : List (String × ItemData) :=
  castable_magic_table ++
  [(ItemName.PHOENIX, ItemData.mk ItemID.PHOENIX 0 IC.progression)]

/-- `magic_table`: the dict built from the entry sequence. -/
def magic_table : List (String × ItemData) :=
  mkDict magic_table_src

/-- The fully summed-out form of `magic_table` (proved equal to it below). -/
def magic_table_lit : List (String × ItemData) :=
  castable_magic_table_lit ++
  [(ItemName.PHOENIX, ItemData.mk ItemID.PHOENIX 0 IC.progression)]

/-- The `emblems_table` dict literal of Items.py: its entry sequence (with any unpacking splices referencing the spliced tables). -/
def emblems_table_src : List (String × ItemData) :=
  [(ItemName.EMBLEMA, ItemData.mk ItemID.EMBLEMA 0 IC.progression),
    (ItemName.EMBLEMB, ItemData.mk ItemID.EMBLEMB 0 IC.progression),
    (ItemName.EMBLEMC, ItemData.mk ItemID.EMBLEMC 0 IC.progression),
    (ItemName.EMBLEMD, ItemData.mk ItemID.EMBLEMD 0 IC.progression),
    (ItemName.EMBLEME, ItemData.mk ItemID.EMBLEME 0 IC.progression),
    (ItemName.EMBLEMF, ItemData.mk ItemID.EMBLEMF 0 IC.progression),
    (ItemName.EMBLEMG, ItemData.mk ItemID.EMBLEMG 0 IC.progression),
    (ItemName.EMBLEMH, ItemData.mk ItemID.EMBLEMH 0 IC.progression)]

/-- `emblems_table`: the dict built from the entry sequence. -/
def emblems_table : List (String × ItemData) :=
  mkDict emblems_table_src

/-- The fully summed-out form of `emblems_table` (proved equal to it below). -/
def emblems_table_lit : List (String × ItemData) :=
  emblems_table_src

/-- The `redhots_table` dict literal of Items.py: its entry sequence (with any unpacking splices referencing the spliced tables). -/
def redhots_table_src : List (String × ItemData) :=
  [(ItemName.REDHOTMIRROR, ItemData.mk ItemID.REDHOTMIRROR 0 IC.progression),
    (ItemName.REDHOTBALL, ItemData.mk ItemID.REDHOTBALL 0 IC.progression),
    (ItemName.REDHOTSTICK, ItemData.mk ItemID.REDHOTSTICK 0 IC.progression)]

/-- `redhots_table`: the dict built from the entry sequence. -/
def redhots_table : List (String × ItemData) :=
  mkDict redhots_table_src

/-- The fully summed-out form of `redhots_table` (proved equal to it below). -/
def redhots_table_lit : List (String × ItemData) :=
  redhots_table_src

/-- The `stones_table` dict literal of Items.py: its entry sequence (with any unpacking splices referencing the spliced tables). -/
def stones_table_src : List (String × ItemData) :=
  [(ItemName.BROWNSTONE, ItemData.mk ItemID.BROWNSTONE 0 IC.progression),
    (ItemName.GREENSTONE, ItemData.mk ItemID.GREENSTONE 0 IC.progression),
    (ItemName.BLUESTONE, ItemData.mk ItemID.BLUESTONE 0 IC.progression),
    (ItemName.SILVERSTONE, ItemData.mk ItemID.SILVERSTONE 0 IC.progression),
    (ItemName.PURPLESTONE, ItemData.mk ItemID.PURPLESTONE 0 IC.progression),
    (ItemName.BLACKSTONE, ItemData.mk ItemID.BLACKSTONE 0 IC.progression)]

/-- `stones_table`: the dict built from the entry sequence. -/
def stones_table : List (String × ItemData) :=
  mkDict stones_table_src

/-- The fully summed-out form of `stones_table` (proved equal to it below). -/
def stones_table_lit : List (String × ItemData) :=
  stones_table_src

/-- The `inventory_items_table` dict literal of Items.py: its entry sequence (with any unpacking splices referencing the spliced tables). -/
def inventory_items_table_src : List (String × ItemData) :=
  [(ItemName.GOATSFOOD, ItemData.mk ItemID.GOATSFOOD 0 IC.useful),
    (ItemName.HARPSTRING, ItemData.mk ItemID.HARPSTRING 0 IC.progression),
    (ItemName.APASS, ItemData.mk ItemID.APASS 0 IC.progression),
    (ItemName.DREAMROD, ItemData.mk ItemID.DREAMROD 0 IC.progression),
    (ItemName.LEOSBRUSH, ItemData.mk ItemID.LEOSBRUSH 0 IC.progression),
    (ItemName.TURBOSLEAVES, ItemData.mk ItemID.TURBOSLEAVES 0 IC.progression),
    (ItemName.MOLESRIBBON, ItemData.mk ItemID.MOLESRIBBON 0 IC.progression),
    (ItemName.BIGPEARL, ItemData.mk ItemID.BIGPEARL 0 IC.progression),
    (ItemName.MERMAIDSTEARS, ItemData.mk ItemID.MERMAIDSTEARS 0 IC.progression),
    (ItemName.MUSHROOMSHOES, ItemData.mk ItemID.MUSHROOMSHOES 0 IC.progression),
    (ItemName.AIRSHIPKEY, ItemData.mk ItemID.AIRSHIPKEY 0 IC.progression),
    (ItemName.THUNDERRING, ItemData.mk ItemID.THUNDERRING 0 IC.progression),
    (ItemName.DELICIOUSSEEDS, ItemData.mk ItemID.DELICIOUSSEEDS 0 IC.progression),
    (ItemName.ACTINIDIALEAVES, ItemData.mk ItemID.ACTINIDIALEAVES 0 IC.progression),
    (ItemName.DOORKEY, ItemData.mk ItemID.DOORKEY 0 IC.progression),
    (ItemName.PLATINUMCARD, ItemData.mk ItemID.PLATINUMCARD 0 IC.progression),
    (ItemName.VIPCARD, ItemData.mk ItemID.VIPCARD 0 IC.progression)] ++
  emblems_table ++
  redhots_table ++
  [(ItemName.POWERBRACELET, ItemData.mk ItemID.POWERBRACELET 0 IC.useful),
    (ItemName.SHIELDBRACELET, ItemData.mk ItemID.SHIELDBRACELET 0 IC.useful),
    (ItemName.SUPERBRACELET, ItemData.mk ItemID.SUPERBRACELET 0 IC.useful),
    (ItemName.MEDICALHERB, ItemData.mk ItemID.MEDICALHERB 0 IC.filler),
    (ItemName.STRANGEBOTTLE, ItemData.mk ItemID.STRANGEBOTTLE 0 IC.filler)] ++
  stones_table ++
  [(ItemName.MAGICBELL, ItemData.mk ItemID.MAGICBELL 0 IC.useful)]

/-- `inventory_items_table`: the dict built from the entry sequence. -/
def inventory_items_table : List (String × ItemData) :=
  mkDict inventory_items_table_src

/-- The fully summed-out form of `inventory_items_table` (proved equal to it below). -/
def inventory_items_table_lit : List (String × ItemData) :=
  [(ItemName.GOATSFOOD, ItemData.mk ItemID.GOATSFOOD 0 IC.useful),
    (ItemName.HARPSTRING, ItemData.mk ItemID.HARPSTRING 0 IC.progression),
    (ItemName.APASS, ItemData.mk ItemID.APASS 0 IC.progression),
    (ItemName.DREAMROD, ItemData.mk ItemID.DREAMROD 0 IC.progression),
    (ItemName.LEOSBRUSH, ItemData.mk ItemID.LEOSBRUSH 0 IC.progression),
    (ItemName.TURBOSLEAVES, ItemData.mk ItemID.TURBOSLEAVES 0 IC.progression),
    (ItemName.MOLESRIBBON, ItemData.mk ItemID.MOLESRIBBON 0 IC.progression),
    (ItemName.BIGPEARL, ItemData.mk ItemID.BIGPEARL 0 IC.progression),
    (ItemName.MERMAIDSTEARS, ItemData.mk ItemID.MERMAIDSTEARS 0 IC.progression),
    (ItemName.MUSHROOMSHOES, ItemData.mk ItemID.MUSHROOMSHOES 0 IC.progression),
    (ItemName.AIRSHIPKEY, ItemData.mk ItemID.AIRSHIPKEY 0 IC.progression),
    (ItemName.THUNDERRING, ItemData.mk ItemID.THUNDERRING 0 IC.progression),
    (ItemName.DELICIOUSSEEDS, ItemData.mk ItemID.DELICIOUSSEEDS 0 IC.progression),
    (ItemName.ACTINIDIALEAVES, ItemData.mk ItemID.ACTINIDIALEAVES 0 IC.progression),
    (ItemName.DOORKEY, ItemData.mk ItemID.DOORKEY 0 IC.progression),
    (ItemName.PLATINUMCARD, ItemData.mk ItemID.PLATINUMCARD 0 IC.progression),
    (ItemName.VIPCARD, ItemData.mk ItemID.VIPCARD 0 IC.progression)] ++
  emblems_table_lit ++
  redhots_table_lit ++
  [(ItemName.POWERBRACELET, ItemData.mk ItemID.POWERBRACELET 0 IC.useful),
    (ItemName.SHIELDBRACELET, ItemData.mk ItemID.SHIELDBRACELET 0 IC.useful),
    (ItemName.SUPERBRACELET, ItemData.mk ItemID.SUPERBRACELET 0 IC.useful),
    (ItemName.MEDICALHERB, ItemData.mk ItemID.MEDICALHERB 0 IC.filler),
    (ItemName.STRANGEBOTTLE, ItemData.mk ItemID.STRANGEBOTTLE 0 IC.filler)] ++
  stones_table_lit ++
  [(ItemName.MAGICBELL, ItemData.mk ItemID.MAGICBELL 0 IC.useful)]

/-- The `misc_table` dict literal of Items.py: its entry sequence (with any unpacking splices referencing the spliced tables). -/
def misc_table_src : List (String × ItemData) :=
  [(ItemName.NOTHING, ItemData.mk ItemID.NOTHING 0 IC.filler),
    (ItemName.GEMS, ItemData.mk ItemID.GEMS 100 IC.filler),
    (ItemName.EXP, ItemData.mk ItemID.EXP 250 IC.filler)]

/-- `misc_table`: the dict built from the entry sequence. -/
def misc_table : List (String × ItemData) :=
  mkDict misc_table_src

/-- The fully summed-out form of `misc_table` (proved equal to it below). -/
def misc_table_lit : List (String × ItemData) :=
  misc_table_src

/-- The `items_table` dict literal of Items.py: its entry sequence (with any unpacking splices referencing the spliced tables). -/
def items_table_src : List (String × ItemData) :=
  swords_table ++
  armors_table ++
  magic_table ++
  inventory_items_table

/-- `items_table`: the dict built from the entry sequence. -/
def items_table : List (String × ItemData) :=
  mkDict items_table_src

/-- The fully summed-out form of `items_table` (proved equal to it below). -/
def items_table_lit : List (String × ItemData) :=
  swords_table_lit ++
  armors_table_lit ++
  magic_table_lit ++
  inventory_items_table_lit

/-- The `npc_release_table` dict literal of Items.py: its entry sequence (with any unpacking splices referencing the spliced tables). -/
def npc_release_table_src : List (String × ItemData) :=
  [(NPCName.OLD_WOMAN, ItemData.mk ItemID.LAIR_RELEASE LairID.OLD_WOMAN IC.progression),
    (NPCName.TOOL_SHOP_OWNER, ItemData.mk ItemID.LAIR_RELEASE LairID.TOOL_SHOP_OWNER IC.progression),
    (NPCName.TULIP, ItemData.mk ItemID.LAIR_RELEASE LairID.TULIP IC.filler),
    (NPCName.BRIDGE_GUARD, ItemData.mk ItemID.LAIR_RELEASE LairID.BRIDGE_GUARD IC.progression),
    (NPCName.VILLAGE_CHIEF, ItemData.mk ItemID.LAIR_RELEASE LairID.VILLAGE_CHIEF IC.progression),
    (NPCName.IVY_CHEST_ROOM, ItemData.mk ItemID.LAIR_RELEASE LairID.IVY_CHEST_ROOM IC.progression),
    (NPCName.WATER_MILL, ItemData.mk ItemID.LAIR_RELEASE LairID.WATER_MILL IC.progression),
    (NPCName.GOAT_HERB, ItemData.mk ItemID.LAIR_RELEASE LairID.GOAT_HERB IC.progression),
    (NPCName.LISA, ItemData.mk ItemID.LAIR_RELEASE LairID.LISA IC.progression),
    (NPCName.TULIP2, ItemData.mk ItemID.LAIR_RELEASE LairID.TULIP2 IC.filler),
    (NPCName.ARCHITECT, ItemData.mk ItemID.LAIR_RELEASE LairID.ARCHITECT IC.progression),
    (NPCName.IVY, ItemData.mk ItemID.LAIR_RELEASE LairID.IVY IC.progression),
    (NPCName.GOAT, ItemData.mk ItemID.LAIR_RELEASE LairID.GOAT IC.progression),
    (NPCName.TEDDY, ItemData.mk ItemID.LAIR_RELEASE LairID.TEDDY IC.progression),
    (NPCName.TULIP3, ItemData.mk ItemID.LAIR_RELEASE LairID.TULIP3 IC.filler),
    (NPCName.LEOS_HOUSE, ItemData.mk ItemID.LAIR_RELEASE LairID.LEOS_HOUSE IC.progression),
    (NPCName.LONELY_GOAT, ItemData.mk ItemID.LAIR_RELEASE LairID.LONELY_GOAT IC.filler),
    (NPCName.TULIP_PASS, ItemData.mk ItemID.LAIR_RELEASE LairID.TULIP_PASS IC.progression),
    (NPCName.BOY_CABIN, ItemData.mk ItemID.LAIR_RELEASE LairID.BOY_CABIN IC.filler),
    (NPCName.BOY_CAVE, ItemData.mk ItemID.LAIR_RELEASE LairID.BOY_CAVE IC.progression),
    (NPCName.OLD_MAN, ItemData.mk ItemID.LAIR_RELEASE LairID.OLD_MAN IC.filler),
    (NPCName.OLD_MAN2, ItemData.mk ItemID.LAIR_RELEASE LairID.OLD_MAN2 IC.filler),
    (NPCName.IVY2, ItemData.mk ItemID.LAIR_RELEASE LairID.IVY2 IC.filler),
    (NPCName.IVY_EMBLEM_A, ItemData.mk ItemID.LAIR_RELEASE LairID.IVY_EMBLEM_A IC.progression),
    (NPCName.IVY_RECOVERY_SWORD, ItemData.mk ItemID.LAIR_RELEASE LairID.IVY_RECOVERY_SWORD IC.progression),
    (NPCName.TULIP4, ItemData.mk ItemID.LAIR_RELEASE LairID.TULIP4 IC.filler),
    (NPCName.GOAT2, ItemData.mk ItemID.LAIR_RELEASE LairID.GOAT2 IC.filler),
    (NPCName.BIRD_RED_HOT_MIRROR, ItemData.mk ItemID.LAIR_RELEASE LairID.BIRD_RED_HOT_MIRROR IC.progression),
    (NPCName.BIRD, ItemData.mk ItemID.LAIR_RELEASE LairID.BIRD IC.filler),
    (NPCName.DOG, ItemData.mk ItemID.LAIR_RELEASE LairID.DOG IC.filler),
    (NPCName.DOG2, ItemData.mk ItemID.LAIR_RELEASE LairID.DOG2 IC.filler),
    (NPCName.DOG3, ItemData.mk ItemID.LAIR_RELEASE LairID.DOG3 IC.progression),
    (NPCName.MOLE_SHIELD_BRACELET, ItemData.mk ItemID.LAIR_RELEASE LairID.MOLE_SHIELD_BRACELET IC.progression),
    (NPCName.SQUIRREL_EMBLEM_C, ItemData.mk ItemID.LAIR_RELEASE LairID.SQUIRREL_EMBLEM_C IC.progression),
    (NPCName.SQUIRREL_PSYCHO_SWORD, ItemData.mk ItemID.LAIR_RELEASE LairID.SQUIRREL_PSYCHO_SWORD IC.progression),
    (NPCName.BIRD2, ItemData.mk ItemID.LAIR_RELEASE LairID.BIRD2 IC.filler),
    (NPCName.MOLE_SOUL_OF_LIGHT, ItemData.mk ItemID.LAIR_RELEASE LairID.MOLE_SOUL_OF_LIGHT IC.progression),
    (NPCName.DEER, ItemData.mk ItemID.LAIR_RELEASE LairID.DEER IC.progression),
    (NPCName.CROCODILE, ItemData.mk ItemID.LAIR_RELEASE LairID.CROCODILE IC.progression),
    (NPCName.SQUIRREL, ItemData.mk ItemID.LAIR_RELEASE LairID.SQUIRREL IC.filler),
    (NPCName.GREENWOODS_GUARDIAN, ItemData.mk ItemID.LAIR_RELEASE LairID.GREENWOODS_GUARDIAN IC.progression),
    (NPCName.MOLE, ItemData.mk ItemID.LAIR_RELEASE LairID.MOLE IC.progression),
    (NPCName.DOG4, ItemData.mk ItemID.LAIR_RELEASE LairID.DOG4 IC.filler),
    (NPCName.SQUIRREL_ICE_ARMOR, ItemData.mk ItemID.LAIR_RELEASE LairID.SQUIRREL_ICE_ARMOR IC.progression),
    (NPCName.SQUIRREL2, ItemData.mk ItemID.LAIR_RELEASE LairID.SQUIRREL2 IC.filler),
    (NPCName.DOG5, ItemData.mk ItemID.LAIR_RELEASE LairID.DOG5 IC.filler),
    (NPCName.CROCODILE2, ItemData.mk ItemID.LAIR_RELEASE LairID.CROCODILE2 IC.progression),
    (NPCName.MOLE2, ItemData.mk ItemID.LAIR_RELEASE LairID.MOLE2 IC.filler),
    (NPCName.SQUIRREL3, ItemData.mk ItemID.LAIR_RELEASE LairID.SQUIRREL3 IC.progression),
    (NPCName.BIRD_GREENWOOD_LEAF, ItemData.mk ItemID.LAIR_RELEASE LairID.BIRD_GREENWOOD_LEAF IC.progression),
    (NPCName.MOLE3, ItemData.mk ItemID.LAIR_RELEASE LairID.MOLE3 IC.progression),
    (NPCName.DEER_MAGIC_BELL, ItemData.mk ItemID.LAIR_RELEASE LairID.DEER_MAGIC_BELL IC.progression),
    (NPCName.BIRD3, ItemData.mk ItemID.LAIR_RELEASE LairID.BIRD3 IC.filler),
    (NPCName.CROCODILE3, ItemData.mk ItemID.LAIR_RELEASE LairID.CROCODILE3 IC.progression),
    (NPCName.MONMO, ItemData.mk ItemID.LAIR_RELEASE LairID.MONMO IC.progression),
    (NPCName.DOLPHIN, ItemData.mk ItemID.LAIR_RELEASE LairID.DOLPHIN IC.filler),
    (NPCName.ANGELFISH, ItemData.mk ItemID.LAIR_RELEASE LairID.ANGELFISH IC.filler),
    (NPCName.MERMAID, ItemData.mk ItemID.LAIR_RELEASE LairID.MERMAID IC.progression),
    (NPCName.ANGELFISH2, ItemData.mk ItemID.LAIR_RELEASE LairID.ANGELFISH2 IC.filler),
    (NPCName.MERMAID_PEARL, ItemData.mk ItemID.LAIR_RELEASE LairID.MERMAID_PEARL IC.progression),
    (NPCName.MERMAID2, ItemData.mk ItemID.LAIR_RELEASE LairID.MERMAID2 IC.filler),
    (NPCName.DOLPHIN_SAVES_LUE, ItemData.mk ItemID.LAIR_RELEASE LairID.DOLPHIN_SAVES_LUE IC.progression),
    (NPCName.MERMAID_STATUE_BLESTER, ItemData.mk ItemID.LAIR_RELEASE LairID.MERMAID_STATUE_BLESTER IC.progression),
    (NPCName.MERMAID_RED_HOT_STICK, ItemData.mk ItemID.LAIR_RELEASE LairID.MERMAID_RED_HOT_STICK IC.progression),
    (NPCName.LUE, ItemData.mk ItemID.LAIR_RELEASE LairID.LUE IC.progression),
    (NPCName.MERMAID3, ItemData.mk ItemID.LAIR_RELEASE LairID.MERMAID3 IC.filler),
    (NPCName.MERMAID_NANA, ItemData.mk ItemID.LAIR_RELEASE LairID.MERMAID_NANA IC.filler),
    (NPCName.MERMAID4, ItemData.mk ItemID.LAIR_RELEASE LairID.MERMAID4 IC.filler),
    (NPCName.DOLPHIN2, ItemData.mk ItemID.LAIR_RELEASE LairID.DOLPHIN2 IC.progression),
    (NPCName.MERMAID_STATUE_ROCKBIRD, ItemData.mk ItemID.LAIR_RELEASE LairID.MERMAID_STATUE_ROCKBIRD IC.progression),
    (NPCName.MERMAID_BUBBLE_ARMOR, ItemData.mk ItemID.LAIR_RELEASE LairID.MERMAID_BUBBLE_ARMOR IC.progression),
    (NPCName.MERMAID5, ItemData.mk ItemID.LAIR_RELEASE LairID.MERMAID5 IC.filler),
    (NPCName.MERMAID6, ItemData.mk ItemID.LAIR_RELEASE LairID.MERMAID6 IC.filler),
    (NPCName.MERMAID_TEARS, ItemData.mk ItemID.LAIR_RELEASE LairID.MERMAID_TEARS IC.filler),
    (NPCName.MERMAID_STATUE_DUREAN, ItemData.mk ItemID.LAIR_RELEASE LairID.MERMAID_STATUE_DUREAN IC.progression),
    (NPCName.ANGELFISH3, ItemData.mk ItemID.LAIR_RELEASE LairID.ANGELFISH3 IC.filler),
    (NPCName.ANGELFISH_SOUL_OF_SHIELD, ItemData.mk ItemID.LAIR_RELEASE LairID.ANGELFISH_SOUL_OF_SHIELD IC.progression),
    (NPCName.MERMAID_MAGIC_FLARE, ItemData.mk ItemID.LAIR_RELEASE LairID.MERMAID_MAGIC_FLARE IC.progression),
    (NPCName.MERMAID_QUEEN, ItemData.mk ItemID.LAIR_RELEASE LairID.MERMAID_QUEEN IC.progression),
    (NPCName.MERMAID_STATUE_GHOST_SHIP, ItemData.mk ItemID.LAIR_RELEASE LairID.MERMAID_STATUE_GHOST_SHIP IC.progression),
    (NPCName.DOLPHIN_SECRET_CAVE, ItemData.mk ItemID.LAIR_RELEASE LairID.DOLPHIN_SECRET_CAVE IC.progression),
    (NPCName.MERMAID7, ItemData.mk ItemID.LAIR_RELEASE LairID.MERMAID7 IC.filler),
    (NPCName.ANGELFISH4, ItemData.mk ItemID.LAIR_RELEASE LairID.ANGELFISH4 IC.filler),
    (NPCName.MERMAID8, ItemData.mk ItemID.LAIR_RELEASE LairID.MERMAID8 IC.filler),
    (NPCName.DOLPHIN_PEARL, ItemData.mk ItemID.LAIR_RELEASE LairID.DOLPHIN_PEARL IC.progression),
    (NPCName.MERMAID9, ItemData.mk ItemID.LAIR_RELEASE LairID.MERMAID9 IC.filler),
    (NPCName.GRANDPA, ItemData.mk ItemID.LAIR_RELEASE LairID.GRANDPA IC.progression),
    (NPCName.GIRL, ItemData.mk ItemID.LAIR_RELEASE LairID.GIRL IC.filler),
    (NPCName.MUSHROOM, ItemData.mk ItemID.LAIR_RELEASE LairID.MUSHROOM IC.filler),
    (NPCName.BOY, ItemData.mk ItemID.LAIR_RELEASE LairID.BOY IC.progression),
    (NPCName.GRANDPA2, ItemData.mk ItemID.LAIR_RELEASE LairID.GRANDPA2 IC.filler),
    (NPCName.SNAIL_JOCKEY, ItemData.mk ItemID.LAIR_RELEASE LairID.SNAIL_JOCKEY IC.filler),
    (NPCName.NOME, ItemData.mk ItemID.LAIR_RELEASE LairID.NOME IC.progression),
    (NPCName.BOY2, ItemData.mk ItemID.LAIR_RELEASE LairID.BOY2 IC.filler),
    (NPCName.MUSHROOM_EMBLEM_F, ItemData.mk ItemID.LAIR_RELEASE LairID.MUSHROOM_EMBLEM_F IC.progression),
    (NPCName.DANCING_GRANDMA, ItemData.mk ItemID.LAIR_RELEASE LairID.DANCING_GRANDMA IC.progression),
    (NPCName.DANCING_GRANDMA2, ItemData.mk ItemID.LAIR_RELEASE LairID.DANCING_GRANDMA2 IC.progression),
    (NPCName.SNAIL_EMBLEM_E, ItemData.mk ItemID.LAIR_RELEASE LairID.SNAIL_EMBLEM_E IC.progression),
    (NPCName.BOY_MUSHROOM_SHOES, ItemData.mk ItemID.LAIR_RELEASE LairID.BOY_MUSHROOM_SHOES IC.progression),
    (NPCName.GRANDMA, ItemData.mk ItemID.LAIR_RELEASE LairID.GRANDMA IC.filler),
    (NPCName.GIRL2, ItemData.mk ItemID.LAIR_RELEASE LairID.GIRL2 IC.filler),
    (NPCName.MUSHROOM2, ItemData.mk ItemID.LAIR_RELEASE LairID.MUSHROOM2 IC.progression),
    (NPCName.SNAIL_RACER, ItemData.mk ItemID.LAIR_RELEASE LairID.SNAIL_RACER IC.filler),
    (NPCName.SNAIL_RACER2, ItemData.mk ItemID.LAIR_RELEASE LairID.SNAIL_RACER2 IC.filler),
    (NPCName.GIRL3, ItemData.mk ItemID.LAIR_RELEASE LairID.GIRL3 IC.progression),
    (NPCName.MUSHROOM3, ItemData.mk ItemID.LAIR_RELEASE LairID.MUSHROOM3 IC.filler),
    (NPCName.SNAIL, ItemData.mk ItemID.LAIR_RELEASE LairID.SNAIL IC.filler),
    (NPCName.GRANDPA3, ItemData.mk ItemID.LAIR_RELEASE LairID.GRANDPA3 IC.progression),
    (NPCName.SNAIL2, ItemData.mk ItemID.LAIR_RELEASE LairID.SNAIL2 IC.filler),
    (NPCName.GRANDPA4, ItemData.mk ItemID.LAIR_RELEASE LairID.GRANDPA4 IC.progression),
    (NPCName.GRANDPA_LUNE, ItemData.mk ItemID.LAIR_RELEASE LairID.GRANDPA_LUNE IC.progression),
    (NPCName.GRANDPA5, ItemData.mk ItemID.LAIR_RELEASE LairID.GRANDPA5 IC.progression),
    (NPCName.MOUNTAIN_KING, ItemData.mk ItemID.LAIR_RELEASE LairID.MOUNTAIN_KING IC.progression),
    (NPCName.PLANT_HERB, ItemData.mk ItemID.LAIR_RELEASE LairID.PLANT_HERB IC.progression),
    (NPCName.PLANT, ItemData.mk ItemID.LAIR_RELEASE LairID.PLANT IC.filler),
    (NPCName.CHEST_OF_DRAWERS_MYSTIC_ARMOR, ItemData.mk ItemID.LAIR_RELEASE LairID.CHEST_OF_DRAWERS_MYSTIC_ARMOR IC.progression),
    (NPCName.CAT, ItemData.mk ItemID.LAIR_RELEASE LairID.CAT IC.progression),
    (NPCName.GREAT_DOOR_ZANTETSU_SWORD, ItemData.mk ItemID.LAIR_RELEASE LairID.GREAT_DOOR_ZANTETSU_SWORD IC.progression),
    (NPCName.CAT2, ItemData.mk ItemID.LAIR_RELEASE LairID.CAT2 IC.progression),
    (NPCName.GREAT_DOOR, ItemData.mk ItemID.LAIR_RELEASE LairID.GREAT_DOOR IC.progression),
    (NPCName.CAT3, ItemData.mk ItemID.LAIR_RELEASE LairID.CAT3 IC.filler),
    (NPCName.MODEL_TOWN1, ItemData.mk ItemID.LAIR_RELEASE LairID.MODEL_TOWN1 IC.progression),
    (NPCName.GREAT_DOOR_MODEL_TOWNS, ItemData.mk ItemID.LAIR_RELEASE LairID.GREAT_DOOR_MODEL_TOWNS IC.progression),
    (NPCName.STEPS_UPSTAIRS, ItemData.mk ItemID.LAIR_RELEASE LairID.STEPS_UPSTAIRS IC.progression),
    (NPCName.CAT_DOOR_KEY, ItemData.mk ItemID.LAIR_RELEASE LairID.CAT_DOOR_KEY IC.progression),
    (NPCName.MOUSE, ItemData.mk ItemID.LAIR_RELEASE LairID.MOUSE IC.progression),
    (NPCName.MARIE, ItemData.mk ItemID.LAIR_RELEASE LairID.MARIE IC.progression),
    (NPCName.DOLL, ItemData.mk ItemID.LAIR_RELEASE LairID.DOLL IC.filler),
    (NPCName.CHEST_OF_DRAWERS, ItemData.mk ItemID.LAIR_RELEASE LairID.CHEST_OF_DRAWERS IC.filler),
    (NPCName.PLANT2, ItemData.mk ItemID.LAIR_RELEASE LairID.PLANT2 IC.filler),
    (NPCName.MOUSE2, ItemData.mk ItemID.LAIR_RELEASE LairID.MOUSE2 IC.filler),
    (NPCName.MOUSE_SPARK_BOMB, ItemData.mk ItemID.LAIR_RELEASE LairID.MOUSE_SPARK_BOMB IC.progression),
    (NPCName.MOUSE3, ItemData.mk ItemID.LAIR_RELEASE LairID.MOUSE3 IC.filler),
    (NPCName.GREAT_DOOR_SOUL_OF_DETECTION, ItemData.mk ItemID.LAIR_RELEASE LairID.GREAT_DOOR_SOUL_OF_DETECTION IC.progression),
    (NPCName.MODEL_TOWN2, ItemData.mk ItemID.LAIR_RELEASE LairID.MODEL_TOWN2 IC.progression),
    (NPCName.MOUSE4, ItemData.mk ItemID.LAIR_RELEASE LairID.MOUSE4 IC.filler),
    (NPCName.STEPS_MARIE, ItemData.mk ItemID.LAIR_RELEASE LairID.STEPS_MARIE IC.progression),
    (NPCName.CHEST_OF_DRAWERS2, ItemData.mk ItemID.LAIR_RELEASE LairID.CHEST_OF_DRAWERS2 IC.progression),
    (NPCName.PLANT_ACTINIDIA_LEAVES, ItemData.mk ItemID.LAIR_RELEASE LairID.PLANT_ACTINIDIA_LEAVES IC.progression),
    (NPCName.MOUSE5, ItemData.mk ItemID.LAIR_RELEASE LairID.MOUSE5 IC.filler),
    (NPCName.CAT4, ItemData.mk ItemID.LAIR_RELEASE LairID.CAT4 IC.filler),
    (NPCName.STAIRS_POWER_PLANT, ItemData.mk ItemID.LAIR_RELEASE LairID.STAIRS_POWER_PLANT IC.progression),
    (NPCName.SOLDIER, ItemData.mk ItemID.LAIR_RELEASE LairID.SOLDIER IC.filler),
    (NPCName.SOLDIER2, ItemData.mk ItemID.LAIR_RELEASE LairID.SOLDIER2 IC.filler),
    (NPCName.SOLDIER3, ItemData.mk ItemID.LAIR_RELEASE LairID.SOLDIER3 IC.filler),
    (NPCName.SOLDIER_ELEMENTAL_MAIL, ItemData.mk ItemID.LAIR_RELEASE LairID.SOLDIER_ELEMENTAL_MAIL IC.progression),
    (NPCName.SOLDIER4, ItemData.mk ItemID.LAIR_RELEASE LairID.SOLDIER4 IC.filler),
    (NPCName.SOLDIER5, ItemData.mk ItemID.LAIR_RELEASE LairID.SOLDIER5 IC.filler),
    (NPCName.SINGER_CONCERT_HALL, ItemData.mk ItemID.LAIR_RELEASE LairID.SINGER_CONCERT_HALL IC.progression),
    (NPCName.SOLDIER6, ItemData.mk ItemID.LAIR_RELEASE LairID.SOLDIER6 IC.filler),
    (NPCName.MAID, ItemData.mk ItemID.LAIR_RELEASE LairID.MAID IC.filler),
    (NPCName.SOLDIER_LEFT_TOWER, ItemData.mk ItemID.LAIR_RELEASE LairID.SOLDIER_LEFT_TOWER IC.progression),
    (NPCName.SOLDIER_DOK, ItemData.mk ItemID.LAIR_RELEASE LairID.SOLDIER_DOK IC.progression),
    (NPCName.SOLDIER_PLATINUM_CARD, ItemData.mk ItemID.LAIR_RELEASE LairID.SOLDIER_PLATINUM_CARD IC.progression),
    (NPCName.SINGER, ItemData.mk ItemID.LAIR_RELEASE LairID.SINGER IC.filler),
    (NPCName.SOLDIER_SOUL_OF_REALITY, ItemData.mk ItemID.LAIR_RELEASE LairID.SOLDIER_SOUL_OF_REALITY IC.progression),
    (NPCName.MAID2, ItemData.mk ItemID.LAIR_RELEASE LairID.MAID2 IC.filler),
    (NPCName.QUEEN_MAGRIDD, ItemData.mk ItemID.LAIR_RELEASE LairID.QUEEN_MAGRIDD IC.progression),
    (NPCName.SOLDIER_WITH_LEO, ItemData.mk ItemID.LAIR_RELEASE LairID.SOLDIER_WITH_LEO IC.progression),
    (NPCName.SOLDIER_RIGHT_TOWER, ItemData.mk ItemID.LAIR_RELEASE LairID.SOLDIER_RIGHT_TOWER IC.progression),
    (NPCName.DR_LEO, ItemData.mk ItemID.LAIR_RELEASE LairID.DR_LEO IC.progression),
    (NPCName.SOLDIER7, ItemData.mk ItemID.LAIR_RELEASE LairID.SOLDIER7 IC.filler),
    (NPCName.SOLDIER8, ItemData.mk ItemID.LAIR_RELEASE LairID.SOLDIER8 IC.filler),
    (NPCName.MAID_HERB, ItemData.mk ItemID.LAIR_RELEASE LairID.MAID_HERB IC.progression),
    (NPCName.SOLDIER_CASTLE, ItemData.mk ItemID.LAIR_RELEASE LairID.SOLDIER_CASTLE IC.progression),
    (NPCName.SOLDIER9, ItemData.mk ItemID.LAIR_RELEASE LairID.SOLDIER9 IC.filler),
    (NPCName.SOLDIER10, ItemData.mk ItemID.LAIR_RELEASE LairID.SOLDIER10 IC.filler),
    (NPCName.SOLDIER11, ItemData.mk ItemID.LAIR_RELEASE LairID.SOLDIER11 IC.filler),
    (NPCName.KING_MAGRIDD, ItemData.mk ItemID.LAIR_RELEASE LairID.KING_MAGRIDD IC.progression)]

/-- `npc_release_table`: the dict built from the entry sequence. -/
def npc_release_table : List (String × ItemData) :=
  mkDict npc_release_table_src

/-- The fully summed-out form of `npc_release_table` (proved equal to it below). -/
def npc_release_table_lit : List (String × ItemData) :=
  npc_release_table_src

/-- The `souls_table` dict literal of Items.py: its entry sequence (with any unpacking splices referencing the spliced tables). -/
def souls_table_src : List (String × ItemData) :=
  [(ItemName.SOUL_MAGICIAN, ItemData.mk ItemID.SOUL 0 IC.progression),
    (ItemName.SOUL_LIGHT, ItemData.mk ItemID.SOUL 1 IC.progression),
    (ItemName.SOUL_SHIELD, ItemData.mk ItemID.SOUL 2 IC.useful),
    (ItemName.SOUL_DETECTION, ItemData.mk ItemID.SOUL 3 IC.useful),
    (ItemName.SOUL_REALITY, ItemData.mk ItemID.SOUL 4 IC.progression)]

/-- `souls_table`: the dict built from the entry sequence. -/
def souls_table : List (String × ItemData) :=
  mkDict souls_table_src

/-- The fully summed-out form of `souls_table` (proved equal to it below). -/
def souls_table_lit : List (String × ItemData) :=
  souls_table_src

/-- The `special_table` dict literal of Items.py: its entry sequence (with any unpacking splices referencing the spliced tables). -/
def special_table_src : List (String × ItemData) :=
  [(ItemName.VICTORY, ItemData.mk ItemID.VICTORY 0 IC.progression)]

/-- `special_table`: the dict built from the entry sequence. -/
def special_table : List (String × ItemData) :=
  mkDict special_table_src

/-- The fully summed-out form of `special_table` (proved equal to it below). -/
def special_table_lit : List (String × ItemData) :=
  special_table_src

/-- The `all_items_table` dict literal of Items.py: its entry sequence (with any unpacking splices referencing the spliced tables). -/
def all_items_table_src : List (String × ItemData) :=
  items_table ++
  misc_table ++
  npc_release_table ++
  souls_table ++
  special_table

/-- `all_items_table`: the dict built from the entry sequence. -/
def all_items_table : List (String × ItemData) :=
  mkDict all_items_table_src

/-- The fully summed-out form of `all_items_table` (proved equal to it below). -/
def all_items_table_lit : List (String × ItemData) :=
  items_table_lit ++
  misc_table_lit ++
  npc_release_table_lit ++
  souls_table_lit ++
  special_table_lit

/-- `repeatable_items_table`: two entries shared with the inventory table plus the misc table. -/
def repeatable_items_table : List (String × ItemData) :=
  mkDict ([(ItemName.MEDICALHERB, dictLookup inventory_items_table ItemName.MEDICALHERB),
    (ItemName.STRANGEBOTTLE, dictLookup inventory_items_table ItemName.STRANGEBOTTLE)] ++
  misc_table)

/-- `unique_items_table`: every catalog entry that is neither repeatable nor the victory token. -/
def unique_items_table : List (String × ItemData) :=
  all_items_table.filter (fun kv =>
    !(repeatable_items_table.any (fun p => p.1 == kv.1)) && kv.1 != ItemName.VICTORY)

/-- The `item_name_groups` mapping of Items.py. -/
def item_name_groups : List (String × List String) :=
  [("swords", swords_table.map Prod.fst),
   ("armors", armors_table.map Prod.fst),
   ("magic", magic_table.map Prod.fst),
   ("stones", stones_table.map Prod.fst),
   ("emblems", emblems_table.map Prod.fst),
   ("redhots", redhots_table.map Prod.fst),
   ("souls", souls_table.map Prod.fst)]

/-- The `SoulBlazerItem` class: the `Item` base-class fields set at
construction time (name, classification, code, player) plus the private
`_itemData` record.  Note the base-class `classification` and `code` are
snapshots taken from the ItemData passed to `__init__`. -/
structure SoulBlazerItem where
  name : String
  player : Nat
  classification : IC
  code : Nat
  itemData : ItemData
deriving DecidableEq, Repr

/-- `SoulBlazerItem.__init__(name, player, itemData)`. -/
def SoulBlazerItem.init (name : String) (player : Nat) (itemData : ItemData) : SoulBlazerItem :=
  ⟨name, player, itemData.classification, itemData.code, itemData⟩

/-- `SoulBlazerItem.set_operand`: rebinds `_itemData` to a duplicate of the
old record with the new operand (the base-class fields are untouched). -/
def SoulBlazerItem.set_operand (item : SoulBlazerItem) (value : Nat) : SoulBlazerItem :=
  ⟨item.name, item.player, item.classification, item.code, item.itemData.duplicate value⟩

/-- `SoulBlazerItem.id` property. -/
def SoulBlazerItem.id (item : SoulBlazerItem) : Nat :=
  item.itemData.id

/-- `SoulBlazerItem.operand` property (getter). -/
def SoulBlazerItem.operand (item : SoulBlazerItem) : Nat :=
  item.itemData.operand

def herb_count : Nat := 20

def bottle_count : Nat := 7

def nothing_count : Nat := 3

def gem_values_vanilla : List Nat :=
  [1, 12, 40, 50, 50, 50, 50, 50, 60, 60, 80, 80, 80, 80, 80, 100, 100, 100, 100, 150, 200]

def exp_values_vanilla : List Nat :=
  [1, 30, 80, 150, 180, 200, 250, 300, 300, 300, 300, 300, 400]

/-- The three values of the `gem_exp_pool` option.  Modelled from the spec:
the option type lives in Options.py, outside the given source; the spec
names the configurations vanilla-fixed, improved-fixed and
randomized-range. -/
inductive GemExpPool where
  | vanilla
  | improved
  | random_range
deriving DecidableEq, Repr

/-- Modelled from the spec: a seeded uniform random source (`world.random`,
supplied by the surrounding infrastructure).  A stream of raw draws plus a
position; `randint` consumes one draw. -/
structure Rng where
  seq : Nat → Nat
  pos : Nat

/-- Modelled from the spec: `random.randint(lo, hi)` draws a uniform integer
in the closed interval [lo, hi] and advances the source. -/
def Rng.randint (r : Rng) (lo hi : Nat) : Nat × Rng :=
  (lo + r.seq r.pos % (hi + 1 - lo), ⟨r.seq, r.pos + 1⟩)

/-- A Python list comprehension `[rng.randint(lo, hi) for _ in range(n)]`:
`n` draws threaded left to right. -/
def Rng.randints (r : Rng) (n lo hi : Nat) : List Nat × Rng :=
  match n with
  | 0 => ([], r)
  | m + 1 =>
    let p1 := r.randint lo hi
    let p2 := p1.2.randints m lo hi
    (p1.1 :: p2.1, p2.2)

/-- The parts of `SoulBlazerWorld` that `create_itempool` touches: the
player id, the `gem_exp_pool` option, the random source and the
`gem_items`/`exp_items` attributes it assigns.  Modelled from the spec as
far as the world/option plumbing goes (the class itself is outside the
given source). -/
structure SoulBlazerWorld where
  player : Nat
  gem_exp_pool : GemExpPool
  random : Rng
  gem_items : List SoulBlazerItem
  exp_items : List SoulBlazerItem

/-- `create_gem_pool`, threading the world's random source. -/
def create_gem_pool (world : SoulBlazerWorld) : List Nat × SoulBlazerWorld :=
  match world.gem_exp_pool with
  | GemExpPool.random_range =>
    let (vs, r) := world.random.randints gem_values_vanilla.length 1 999
    (vs, ⟨world.player, world.gem_exp_pool, r, world.gem_items, world.exp_items⟩)
  | GemExpPool.improved => (gem_values_vanilla.map (fun gem => gem * 2), world)
  | GemExpPool.vanilla => (gem_values_vanilla, world)

/-- `create_exp_pool`, threading the world's random source. -/
def create_exp_pool (world : SoulBlazerWorld) : List Nat × SoulBlazerWorld :=
  match world.gem_exp_pool with
  | GemExpPool.random_range =>
    let (vs, r) := world.random.randints exp_values_vanilla.length 1 9999
    (vs, ⟨world.player, world.gem_exp_pool, r, world.gem_items, world.exp_items⟩)
  | GemExpPool.improved => (exp_values_vanilla.map (fun exp => exp * 10), world)
  | GemExpPool.vanilla => (exp_values_vanilla, world)

/-- Modelled from the spec: `world.create_item(name)` (defined in the world
class, outside the given source) builds a reward instance from the catalog
record registered under `name`. -/
def SoulBlazerWorld.create_item (world : SoulBlazerWorld) (name : String) : SoulBlazerItem :=
  SoulBlazerItem.init name world.player (dictLookup all_items_table name)

/-- `create_itempool`: unique items once each, the fixed filler counts, and
one currency instance per generated gem/exp value (also recording
`world.gem_items` / `world.exp_items` as the source does). -/
def create_itempool (world : SoulBlazerWorld) : List SoulBlazerItem × SoulBlazerWorld :=
  let itempool := unique_items_table.map (fun kv => SoulBlazerItem.init kv.1 world.player kv.2)
  let itempool := itempool ++
    List.replicate herb_count
      (SoulBlazerItem.init ItemName.MEDICALHERB world.player
        (dictLookup repeatable_items_table ItemName.MEDICALHERB))
  let itempool := itempool ++
    List.replicate bottle_count
      (SoulBlazerItem.init ItemName.STRANGEBOTTLE world.player
        (dictLookup repeatable_items_table ItemName.STRANGEBOTTLE))
  let itempool := itempool ++
    List.replicate nothing_count
      (SoulBlazerItem.init ItemName.NOTHING world.player
        (dictLookup repeatable_items_table ItemName.NOTHING))
  let (gemVals, world1) := create_gem_pool world
  let gems := gemVals.map (fun value => (world1.create_item ItemName.GEMS).set_operand value)
  let world2 : SoulBlazerWorld :=
    ⟨world1.player, world1.gem_exp_pool, world1.random, gems, world1.exp_items⟩
  let itempool := itempool ++ gems
  let (expVals, world3) := create_exp_pool world2
  let exps := expVals.map (fun value => (world3.create_item ItemName.EXP).set_operand value)
  let world4 : SoulBlazerWorld :=
    ⟨world3.player, world3.gem_exp_pool, world3.random, world3.gem_items, exps⟩
  let itempool := itempool ++ exps
  (itempool, world4)
/-- The `RuleFlag` enumeration of Rules.py. -/
inductive RuleFlag where
  | NONE
  | CAN_CUT_METAL
  | CAN_CUT_SPIRIT
  | HAS_THUNDER
  | HAS_MAGIC
  | HAS_SWORD
  | HAS_STONES
  | PHOENIX_CUTSCENE
deriving DecidableEq, Repr

def metal_items : List String := [ItemName.ZANTETSUSWORD, ItemName.SOULBLADE]

def spirit_items : List String := [ItemName.SPIRITSWORD, ItemName.SOULBLADE]

def thunder_items : List String := ItemName.THUNDERRING :: metal_items

def magic_items : List String :=
  [ItemName.FLAMEBALL, ItemName.LIGHTARROW, ItemName.MAGICFLARE, ItemName.ROTATOR,
   ItemName.SPARKBOMB, ItemName.FLAMEPILLAR, ItemName.TORNADO]

def sword_items : List String := swords_table.map Prod.fst

/-- Modelled from the spec: the external `CollectionState` (BaseClasses,
outside the given source) records per-player item counts, per-player
location/region reachability, and the per-player configured stones-count
option threshold (spec section 6 interface list). -/
structure CollectionState where
  items : String → Nat → Nat
  reachableLocations : String → Nat → Bool
  reachableRegions : String → Nat → Bool
  stones_count : Nat → Nat

/-- Modelled from the spec: `state.has(item_name, player)` — the player
holds at least one copy. -/
def CollectionState.has (s : CollectionState) (item : String) (p : Nat) : Bool :=
  decide (1 ≤ s.items item p)

/-- Modelled from the spec: `state.has_any(item_names, player)`. -/
def CollectionState.has_any (s : CollectionState) (items : List String) (p : Nat) : Bool :=
  items.any (fun i => s.has i p)

/-- Modelled from the spec: `state.has_all(item_names, player)`. -/
def CollectionState.has_all (s : CollectionState) (items : List String) (p : Nat) : Bool :=
  items.all (fun i => s.has i p)

/-- Modelled from the spec: `state.has_group(group_name, player, count)` —
the player holds at least `count` items, multiplicities included, from the
named group of `item_name_groups`. -/
def CollectionState.has_group (s : CollectionState) (group : String) (p : Nat) (count : Nat) : Bool :=
  decide (count ≤ ((dictGet item_name_groups group []).map (fun i => s.items i p)).sum)

/-- Modelled from the spec: `state.can_reach_location(name, player)`. -/
def CollectionState.can_reach_location (s : CollectionState) (name : String) (p : Nat) : Bool :=
  s.reachableLocations name p

/-- Modelled from the spec: `state.can_reach_region(name, player)`. -/
def CollectionState.can_reach_region (s : CollectionState) (name : String) (p : Nat) : Bool :=
  s.reachableRegions name p

def no_requirement (_state : CollectionState) (_player : Nat) : Bool :=
  true

def can_cut_metal (state : CollectionState) (player : Nat) : Bool :=
  state.has_any metal_items player

def can_cut_spirit (state : CollectionState) (player : Nat) : Bool :=
  state.has_any spirit_items player

def has_thunder (state : CollectionState) (player : Nat) : Bool :=
  state.has_any thunder_items player

def has_magic (state : CollectionState) (player : Nat) : Bool :=
  state.has ItemName.SOUL_MAGICIAN player && state.has_any magic_items player

def has_sword (state : CollectionState) (player : Nat) : Bool :=
  state.has_any sword_items player

def has_stones (state : CollectionState) (player : Nat) : Bool :=
  state.has_group "stones" player (state.stones_count player)

def has_phoenix_cutscene (state : CollectionState) (player : Nat) : Bool :=
  state.can_reach_location NPCRewardName.MOUNTAIN_KING player

/-- The `rule_for_flag` dictionary of Rules.py as a total dispatch. -/
def rule_for_flag : RuleFlag → CollectionState → Nat → Bool
  | RuleFlag.NONE => no_requirement
  | RuleFlag.CAN_CUT_METAL => can_cut_metal
  | RuleFlag.CAN_CUT_SPIRIT => can_cut_spirit
  | RuleFlag.HAS_THUNDER => has_thunder
  | RuleFlag.HAS_MAGIC => has_magic
  | RuleFlag.HAS_SWORD => has_sword
  | RuleFlag.HAS_STONES => has_stones
  | RuleFlag.PHOENIX_CUTSCENE => has_phoenix_cutscene

/-- The rule-chain node type: the `RuleData` base class of Rules.py and its
subclasses, each with the optional `next` link used for conjunctive
chaining. -/
inductive RuleData where
  | base (next : Option RuleData)
  | FlagRuleData (next : Option RuleData) (flag : RuleFlag)
  | HasAnyRuleData (next : Option RuleData) (items : List String)
  | HasAllRuleData (next : Option RuleData) (items : List String)
  | CanReachLocationRuleData (next : Option RuleData) (spot : String)
  | CanReachRegionRule (next : Option RuleData) (spot : String)
deriving Repr

/-- The condition carried by a single node, its `next` link ignored: what
the node contributes to the conjunction (`True` for the bare base class). -/
def nodeHolds : RuleData → Nat → CollectionState → Bool
  | RuleData.base _, _, _ => true
  | RuleData.FlagRuleData _ flag, p, s => rule_for_flag flag s p
  | RuleData.HasAnyRuleData _ items, p, s => s.has_any items p
  | RuleData.HasAllRuleData _ items, p, s => s.has_all items p
  | RuleData.CanReachLocationRuleData _ spot, p, s => s.can_reach_location spot p
  | RuleData.CanReachRegionRule _ spot, p, s => s.can_reach_region spot p

/-- The list of nodes of a chain, head first, following `next` links. -/
def chainNodes : RuleData → List RuleData
  | RuleData.base none => [RuleData.base none]
  | RuleData.base (some n) => RuleData.base (some n) :: chainNodes n
  | RuleData.FlagRuleData none flag => [RuleData.FlagRuleData none flag]
  | RuleData.FlagRuleData (some n) flag => RuleData.FlagRuleData (some n) flag :: chainNodes n
  | RuleData.HasAnyRuleData none items => [RuleData.HasAnyRuleData none items]
  | RuleData.HasAnyRuleData (some n) items => RuleData.HasAnyRuleData (some n) items :: chainNodes n
  | RuleData.HasAllRuleData none items => [RuleData.HasAllRuleData none items]
  | RuleData.HasAllRuleData (some n) items => RuleData.HasAllRuleData (some n) items :: chainNodes n
  | RuleData.CanReachLocationRuleData none spot => [RuleData.CanReachLocationRuleData none spot]
  | RuleData.CanReachLocationRuleData (some n) spot => RuleData.CanReachLocationRuleData (some n) spot :: chainNodes n
  | RuleData.CanReachRegionRule none spot => [RuleData.CanReachRegionRule none spot]
  | RuleData.CanReachRegionRule (some n) spot => RuleData.CanReachRegionRule (some n) spot :: chainNodes n

/-- `get_rule` of `RuleData` and each subclass: the compiled predicate.
Each `get_rule` override either returns the node's own condition (no
`next`) or the Python `and` of the condition with the compiled `next`
rule. -/
def getRule : RuleData → Nat → CollectionState → Bool
  | RuleData.base none, _, _ => true
  | RuleData.base (some n), p, s => true && getRule n p s
  | RuleData.FlagRuleData none flag, p, s => rule_for_flag flag s p
  | RuleData.FlagRuleData (some n) flag, p, s => rule_for_flag flag s p && getRule n p s
  | RuleData.HasAnyRuleData none items, p, s => s.has_any items p
  | RuleData.HasAnyRuleData (some n) items, p, s => s.has_any items p && getRule n p s
  | RuleData.HasAllRuleData none items, p, s => s.has_all items p
  | RuleData.HasAllRuleData (some n) items, p, s => s.has_all items p && getRule n p s
  | RuleData.CanReachLocationRuleData none spot, p, s => s.can_reach_location spot p
  | RuleData.CanReachLocationRuleData (some n) spot, p, s => s.can_reach_location spot p && getRule n p s
  | RuleData.CanReachRegionRule none spot, p, s => s.can_reach_region spot p
  | RuleData.CanReachRegionRule (some n) spot, p, s => s.can_reach_region spot p && getRule n p s

/-- A flag-evaluator table for instrumented evaluation: like
`rule_for_flag`, but an evaluator may raise (`Except.error`), standing for
a stub that records being called by raising. -/
def FlagEnv : Type :=
  RuleFlag → CollectionState → Nat → Except String Bool

/-- The standard evaluator table, which never raises. -/
def pureFlagEnv : FlagEnv :=
  fun flag s p => Except.ok (rule_for_flag flag s p)

/-- Instrumented chain evaluation: the same structure as `getRule`, with
Python `and` embedded monadically so that the left conjunct is forced
first and the right conjunct is reached only when the left is truthy;
flag evaluators are drawn from `env` and may raise. -/
def evalE (env : FlagEnv) : RuleData → Nat → CollectionState → Except String Bool
  | RuleData.base none, _, _ => Except.ok true
  | RuleData.base (some n), p, s => evalE env n p s
  | RuleData.FlagRuleData none flag, p, s => env flag s p
  | RuleData.FlagRuleData (some n) flag, p, s =>
    match env flag s p with
    | Except.error e => Except.error e
    | Except.ok a => if a then evalE env n p s else Except.ok false
  | RuleData.HasAnyRuleData none items, p, s => Except.ok (s.has_any items p)
  | RuleData.HasAnyRuleData (some n) items, p, s =>
    if s.has_any items p then evalE env n p s else Except.ok false
  | RuleData.HasAllRuleData none items, p, s => Except.ok (s.has_all items p)
  | RuleData.HasAllRuleData (some n) items, p, s =>
    if s.has_all items p then evalE env n p s else Except.ok false
  | RuleData.CanReachLocationRuleData none spot, p, s => Except.ok (s.can_reach_location spot p)
  | RuleData.CanReachLocationRuleData (some n) spot, p, s =>
    if s.can_reach_location spot p then evalE env n p s else Except.ok false
  | RuleData.CanReachRegionRule none spot, p, s => Except.ok (s.can_reach_region spot p)
  | RuleData.CanReachRegionRule (some n) spot, p, s =>
    if s.can_reach_region spot p then evalE env n p s else Except.ok false
/-- The `location_dependencies` mapping of Rules.py. -/
def location_dependencies : List (String × RuleData) :=
  [(NPCRewardName.TOOL_SHOP_OWNER, RuleData.HasAllRuleData none [NPCName.TOOL_SHOP_OWNER]),
   (NPCRewardName.EMBLEM_A_TILE, RuleData.HasAllRuleData none [NPCName.IVY, NPCName.IVY_EMBLEM_A]),
   (NPCRewardName.GOAT_PEN_CORNER, RuleData.HasAllRuleData none [NPCName.GOAT_HERB]),
   (NPCRewardName.TEDDY, RuleData.HasAllRuleData none [NPCName.TOOL_SHOP_OWNER, NPCName.TEDDY]),
   (NPCRewardName.PASS_TILE, RuleData.HasAllRuleData none [NPCName.IVY, NPCName.TULIP_PASS]),
   (NPCRewardName.TILE_IN_CHILDS_SECRET_CAVE, RuleData.HasAllRuleData none [NPCName.BOY_CAVE, ItemName.APASS]),
   (NPCRewardName.RECOVERY_SWORD_CRYSTAL, RuleData.HasAllRuleData none [NPCName.IVY_RECOVERY_SWORD, NPCName.BOY_CAVE, ItemName.APASS]),
   (NPCRewardName.VILLAGE_CHIEF, RuleData.HasAllRuleData none [NPCName.VILLAGE_CHIEF, NPCName.OLD_WOMAN]),
   (NPCRewardName.MAGICIAN, RuleData.FlagRuleData none RuleFlag.HAS_SWORD),
   (NPCRewardName.MAGICIAN_SOUL, RuleData.FlagRuleData none RuleFlag.HAS_SWORD),
   (LairName.OLD_MAN, RuleData.HasAllRuleData none [NPCName.LISA, ItemName.DREAMROD]),
   (LairName.IVY_EMBLEM_A, RuleData.FlagRuleData none RuleFlag.CAN_CUT_METAL),
   (LairName.IVY_RECOVERY_SWORD, RuleData.FlagRuleData none RuleFlag.CAN_CUT_METAL),
   (ChestName.UNDERGROUND_CASTLE_LEOS_BRUSH, RuleData.HasAllRuleData none [NPCName.LISA, ItemName.DREAMROD]),
   (ChestName.LEOS_PAINTING_TORNADO, RuleData.FlagRuleData none RuleFlag.CAN_CUT_METAL),
   (NPCRewardName.REDHOT_MIRROR_BIRD, RuleData.HasAllRuleData none [NPCName.BIRD_RED_HOT_MIRROR]),
   (NPCRewardName.MAGIC_BELL_CRYSTAL, RuleData.HasAllRuleData none (emblems_table.map Prod.fst ++ [NPCName.DEER_MAGIC_BELL, NPCName.CROCODILE3])),
   (NPCRewardName.WOODSTIN_TRIO, RuleData.HasAllRuleData none [NPCName.DEER, NPCName.SQUIRREL3, NPCName.DOG3]),
   (NPCRewardName.GREENWOOD_LEAVES_TILE, RuleData.HasAllRuleData none [NPCName.MOLE_SOUL_OF_LIGHT, NPCName.CROCODILE, NPCName.CROCODILE2, NPCName.BIRD_GREENWOOD_LEAF, ItemName.DREAMROD]),
   (NPCRewardName.SHIELD_BRACELET_MOLE, RuleData.HasAllRuleData none [NPCName.MOLE, NPCName.MOLE_SHIELD_BRACELET, ItemName.MOLESRIBBON]),
   (NPCRewardName.PSYCHO_SWORD_SQUIRREL, RuleData.HasAllRuleData none [NPCName.SQUIRREL_PSYCHO_SWORD, ItemName.DELICIOUSSEEDS]),
   (NPCRewardName.EMBLEM_C_SQUIRREL, RuleData.HasAllRuleData none [NPCName.SQUIRREL_EMBLEM_C, NPCName.SQUIRREL_PSYCHO_SWORD]),
   (NPCRewardName.GREENWOODS_GUARDIAN, RuleData.HasAllRuleData none [NPCName.GREENWOODS_GUARDIAN]),
   (NPCRewardName.FIRE_SHRINE_CRYSTAL, RuleData.FlagRuleData none RuleFlag.CAN_CUT_METAL),
   (NPCRewardName.MOLE_SOUL_OF_LIGHT, RuleData.HasAllRuleData none [NPCName.MOLE_SOUL_OF_LIGHT]),
   (LairName.BIRD_RED_HOT_MIRROR, RuleData.FlagRuleData none RuleFlag.CAN_CUT_SPIRIT),
   (LairName.BIRD3, RuleData.FlagRuleData none RuleFlag.CAN_CUT_METAL),
   (ChestName.GREENWOOD_ICE_ARMOR, RuleData.HasAllRuleData none [NPCName.MOLE, NPCName.SQUIRREL_ICE_ARMOR, ItemName.DREAMROD]),
   (ChestName.GREENWOOD_TUNNELS, RuleData.HasAllRuleData none [NPCName.MONMO, NPCName.MOLE3]),
   (ChestName.FIRE_SHRINE_2_SCORPION, RuleData.FlagRuleData none RuleFlag.CAN_CUT_METAL),
   (ChestName.LIGHT_SHRINE, RuleData.FlagRuleData none RuleFlag.CAN_CUT_SPIRIT),
   (NPCRewardName.NORTHEASTERN_MERMAID_HERB, RuleData.HasAllRuleData none [NPCName.MERMAID, NPCName.DOLPHIN2]),
   (NPCRewardName.MAGIC_FLARE_MERMAID, RuleData.HasAllRuleData none [NPCName.MERMAID_MAGIC_FLARE, NPCName.MERMAID_BUBBLE_ARMOR]),
   (NPCRewardName.REDHOT_STICK_MERMAID, RuleData.HasAllRuleData none [NPCName.MERMAID_RED_HOT_STICK]),
   (NPCRewardName.LUE, RuleData.HasAllRuleData none [NPCName.LUE, NPCName.DOLPHIN_SAVES_LUE, NPCName.MERMAID_PEARL]),
   (NPCRewardName.MERMAID_QUEEN, RuleData.HasAllRuleData none [NPCName.MERMAID_QUEEN]),
   (NPCRewardName.ANGELFISH_SOUL_OF_SHIELD, RuleData.HasAllRuleData none [NPCName.ANGELFISH_SOUL_OF_SHIELD]),
   (LairName.MERMAID_RED_HOT_STICK, RuleData.FlagRuleData none RuleFlag.CAN_CUT_METAL),
   (LairName.MERMAID3, RuleData.HasAllRuleData none [ItemName.MERMAIDSTEARS]),
   (LairName.MERMAID_STATUE_BLESTER, RuleData.HasAllRuleData none [ItemName.MERMAIDSTEARS]),
   (LairName.MERMAID_STATUE_GHOST_SHIP, RuleData.FlagRuleData none RuleFlag.HAS_THUNDER),
   (ChestName.DUREAN_CRITICAL_SWORD, RuleData.HasAllRuleData none [ItemName.MERMAIDSTEARS]),
   (NPCRewardName.MOUNTAIN_KING, RuleData.HasAllRuleData none [NPCName.DANCING_GRANDMA, NPCName.DANCING_GRANDMA2, ItemName.REDHOTBALL, ItemName.REDHOTMIRROR, ItemName.REDHOTSTICK]),
   (NPCRewardName.MUSHROOM_SHOES_BOY, RuleData.HasAllRuleData none [NPCName.BOY_MUSHROOM_SHOES]),
   (NPCRewardName.EMBLEM_E_SNAIL, RuleData.HasAllRuleData none [NPCName.SNAIL_EMBLEM_E]),
   (NPCRewardName.EMBLEM_F_TILE, RuleData.HasAllRuleData none [NPCName.MUSHROOM_EMBLEM_F, NPCName.GRANDPA5, NPCName.MUSHROOM2, ItemName.DREAMROD]),
   (LairName.SNAIL_EMBLEM_E, RuleData.HasAllRuleData none [NPCName.MUSHROOM_EMBLEM_F, NPCName.GRANDPA5, NPCName.MUSHROOM2, ItemName.DREAMROD]),
   (NPCRewardName.EMBLEM_G_UNDER_CHEST_OF_DRAWERS, RuleData.HasAllRuleData none [NPCName.CHEST_OF_DRAWERS_MYSTIC_ARMOR, NPCName.GREAT_DOOR, ItemName.DOORKEY]),
   (NPCRewardName.CHEST_OF_DRAWERS_MYSTIC_ARMOR, RuleData.HasAllRuleData none [NPCName.CHEST_OF_DRAWERS_MYSTIC_ARMOR, NPCName.GREAT_DOOR, ItemName.DOORKEY]),
   (NPCRewardName.HERB_PLANT_IN_LEOS_LAB, RuleData.HasAllRuleData none [NPCName.PLANT_HERB, NPCName.MOUSE, NPCName.CAT, NPCName.CAT2, ItemName.ACTINIDIALEAVES]),
   (NPCRewardName.SPARK_BOMB_MOUSE, RuleData.HasAllRuleData none [NPCName.MOUSE_SPARK_BOMB, NPCName.MOUSE, NPCName.CAT, NPCName.CAT2, ItemName.ACTINIDIALEAVES]),
   (NPCRewardName.LEOS_CAT_DOOR_KEY, RuleData.HasAllRuleData none [NPCName.CAT_DOOR_KEY, ItemName.DREAMROD]),
   (NPCRewardName.ACTINIDIA_PLANT, RuleData.HasAllRuleData none [NPCName.PLANT_ACTINIDIA_LEAVES]),
   (NPCRewardName.CHEST_OF_DRAWERS_HERB, RuleData.HasAllRuleData none [NPCName.CHEST_OF_DRAWERS2]),
   (NPCRewardName.MARIE, RuleData.HasAllRuleData none [NPCName.MARIE]),
   (NPCRewardName.POWER_PLANT_CRYSTAL, RuleData.HasAllRuleData (some (RuleData.FlagRuleData none RuleFlag.CAN_CUT_METAL)) [ItemName.ICEARMOR]),
   (NPCRewardName.GREAT_DOOR_SOUL_OF_DETECTION, RuleData.HasAllRuleData none [NPCName.GREAT_DOOR_SOUL_OF_DETECTION]),
   (LairName.PLANT_HERB, RuleData.FlagRuleData none RuleFlag.CAN_CUT_METAL),
   (LairName.CHEST_OF_DRAWERS_MYSTIC_ARMOR, RuleData.FlagRuleData none RuleFlag.CAN_CUT_METAL),
   (LairName.CAT2, RuleData.FlagRuleData none RuleFlag.CAN_CUT_METAL),
   (LairName.GREAT_DOOR, RuleData.FlagRuleData none RuleFlag.CAN_CUT_METAL),
   (LairName.GREAT_DOOR_MODEL_TOWNS, RuleData.FlagRuleData none RuleFlag.CAN_CUT_METAL),
   (LairName.STEPS_UPSTAIRS, RuleData.FlagRuleData none RuleFlag.CAN_CUT_METAL),
   (LairName.MOUSE, RuleData.FlagRuleData none RuleFlag.CAN_CUT_METAL),
   (LairName.DOLL, RuleData.HasAllRuleData (some (RuleData.FlagRuleData none RuleFlag.CAN_CUT_METAL)) [ItemName.ICEARMOR]),
   (LairName.MARIE, RuleData.HasAllRuleData (some (RuleData.FlagRuleData none RuleFlag.CAN_CUT_METAL)) [ItemName.ICEARMOR]),
   (LairName.MOUSE_SPARK_BOMB, RuleData.FlagRuleData none RuleFlag.HAS_MAGIC),
   (LairName.MOUSE3, RuleData.FlagRuleData none RuleFlag.HAS_MAGIC),
   (LairName.MODEL_TOWN2, RuleData.FlagRuleData none RuleFlag.HAS_MAGIC),
   (LairName.MOUSE4, RuleData.FlagRuleData none RuleFlag.HAS_MAGIC),
   (LairName.STEPS_MARIE, RuleData.FlagRuleData none RuleFlag.HAS_MAGIC),
   (ChestName.POWER_PLANT_LIGHT_ARMOR, RuleData.FlagRuleData none RuleFlag.CAN_CUT_METAL),
   (NPCRewardName.ELEMENTAL_MAIL_SOLDIER, RuleData.HasAllRuleData none [NPCName.SOLDIER_ELEMENTAL_MAIL, ItemName.DREAMROD]),
   (NPCRewardName.SUPER_BRACELET_TILE, RuleData.HasAllRuleData none [NPCName.DR_LEO, NPCName.SOLDIER_WITH_LEO, NPCName.SOLDIER_DOK, NPCName.QUEEN_MAGRIDD]),
   (NPCRewardName.QUEEN_MAGRIDD_VIP_CARD, RuleData.HasAllRuleData none [NPCName.QUEEN_MAGRIDD]),
   (NPCRewardName.PLATINUM_CARD_SOLDIER, RuleData.HasAllRuleData none [NPCName.SOLDIER_PLATINUM_CARD, NPCName.SINGER_CONCERT_HALL, ItemName.HARPSTRING]),
   (NPCRewardName.MAID_HERB, RuleData.HasAllRuleData none [NPCName.MAID_HERB]),
   (NPCRewardName.EMBLEM_H_TILE, RuleData.HasAllRuleData none [NPCName.SOLDIER_CASTLE]),
   (NPCRewardName.KING_MAGRIDD, RuleData.HasAllRuleData none [NPCName.KING_MAGRIDD, NPCName.SOLDIER_CASTLE]),
   (NPCRewardName.SOLDIER_SOUL_OF_REALITY, RuleData.HasAllRuleData none [NPCName.SOLDIER_SOUL_OF_REALITY]),
   (LairName.SOLDIER2, RuleData.FlagRuleData none RuleFlag.CAN_CUT_SPIRIT),
   (LairName.SOLDIER3, RuleData.FlagRuleData none RuleFlag.CAN_CUT_SPIRIT),
   (LairName.SOLDIER_ELEMENTAL_MAIL, RuleData.FlagRuleData none RuleFlag.CAN_CUT_SPIRIT),
   (LairName.SOLDIER4, RuleData.FlagRuleData none RuleFlag.CAN_CUT_SPIRIT),
   (LairName.SINGER_CONCERT_HALL, RuleData.FlagRuleData none RuleFlag.CAN_CUT_SPIRIT),
   (LairName.MAID, RuleData.FlagRuleData none RuleFlag.CAN_CUT_SPIRIT),
   (LairName.SOLDIER_PLATINUM_CARD, RuleData.FlagRuleData none RuleFlag.CAN_CUT_SPIRIT),
   (LairName.SINGER, RuleData.FlagRuleData none RuleFlag.CAN_CUT_SPIRIT),
   (LairName.KING_MAGRIDD, RuleData.HasAllRuleData none [ItemName.AIRSHIPKEY]),
   (ChestName.WOE_1_SE, RuleData.FlagRuleData none RuleFlag.HAS_MAGIC),
   (ChestName.WOE_1_SW, RuleData.FlagRuleData none RuleFlag.HAS_MAGIC),
   (ChestName.WOE_1_REDHOT_BALL, RuleData.FlagRuleData none RuleFlag.HAS_MAGIC),
   (ChestName.DAZZLING_SPACE_SE, RuleData.HasAllRuleData none [ItemName.SOULARMOR]),
   (ChestName.DAZZLING_SPACE_SW, RuleData.HasAllRuleData none [ItemName.SOULARMOR])]
/-- `get_rule_for_location`: look the name up in `location_dependencies`,
defaulting to a bare `RuleData()` node, and compile it for the player. -/
def get_rule_for_location (name : String) (player : Nat) : CollectionState → Bool :=
  getRule (dictGet location_dependencies name (RuleData.base none)) player

/-- Modelled from Python frozen-dataclass semantics: `ItemData` is declared
`@dataclass(frozen=True)`, so any attribute assignment on an instance
(`dataclasses` overrides `__setattr__`) raises `FrozenInstanceError` and
leaves the record unchanged. -/
def ItemData.frozenSetAttr (_d : ItemData) (_attr : String) (_value : Nat) : Except String ItemData :=
  Except.error "FrozenInstanceError"

/-- The `operand` property setter of `SoulBlazerItem`: executes
`self._itemData.operand = value`, an attribute assignment on the frozen
`ItemData` record; on success it would rebind `_itemData`. -/
def SoulBlazerItem.operandSetter (item : SoulBlazerItem) (value : Nat) : Except String SoulBlazerItem :=
  (item.itemData.frozenSetAttr "operand" value).map
    (fun d => ⟨item.name, item.player, item.classification, item.code, d⟩)

/-- The `operand_bcd` property setter of `SoulBlazerItem`: executes
`self._itemData.operand_bcd = bcd`, an attribute assignment on the frozen
`ItemData` record. -/
def SoulBlazerItem.operandBcdSetter (item : SoulBlazerItem) (bcd : Nat) : Except String SoulBlazerItem :=
  (item.itemData.frozenSetAttr "operand_bcd" bcd).map
    (fun d => ⟨item.name, item.player, item.classification, item.code, d⟩)
/-- A list passing the strict sortedness check is strictly increasing. -/
theorem sortedB_pairwise : (l : List Nat) → sortedB l = true → l.Pairwise (fun a b => a < b)
  | [], _ => List.Pairwise.nil
  | [_], _ => by simp
  | a :: b :: rest, h => by
    have hab : a < b := by
      have := h
      simp only [sortedB, Bool.and_eq_true, decide_eq_true_eq] at this
      exact this.1
    have htl : sortedB (b :: rest) = true := by
      simp only [sortedB, Bool.and_eq_true, decide_eq_true_eq] at h
      exact h.2
    have ih := sortedB_pairwise (b :: rest) htl
    refine List.Pairwise.cons ?_ ih
    intro x hx
    rcases List.mem_cons.mp hx with hxb | hxrest
    · exact hxb ▸ hab
    · exact lt_trans hab (List.rel_of_pairwise_cons ih hxrest)

/-- A list passing the strict sortedness check has no duplicates. -/
theorem nodup_of_sortedB (l : List Nat) (h : sortedB l = true) : l.Nodup :=
  (sortedB_pairwise l h).imp Nat.ne_of_lt

/-- Keys are distinct as soon as their first-character codes are strictly
increasing. -/
theorem nodup_of_sortedB_keys {α : Type} (l : List (String × α))
    (h : sortedB (l.map (fun kv => keyOrd kv.1)) = true) : (l.map Prod.fst).Nodup := by
  have h1 : (l.map (fun kv => keyOrd kv.1)).Nodup := nodup_of_sortedB _ h
  have h2 : ((l.map Prod.fst).map keyOrd).Nodup := by
    rw [List.map_map]
    exact h1
  exact h2.of_map keyOrd

/-- Inserting a fresh key into a dict appends the binding. -/
theorem dictInsert_fresh {α : Type} (d : List (String × α)) (k : String) (v : α)
    (h : ∀ p ∈ d, p.1 ≠ k) : dictInsert d k v = d ++ [(k, v)] := by
  have hc : d.any (fun p => p.1 = k) = false := by
    simp only [List.any_eq_false, decide_eq_true_eq]
    exact h
  simp [dictInsert, hc]

/-- Folding dict insertion over entries with globally distinct keys just
appends them. -/
theorem mkDict_go {α : Type} :
    (b : List (String × α)) → (a : List (String × α)) →
    ((a ++ b).map Prod.fst).Nodup →
    b.foldl (fun d p => dictInsert d p.1 p.2) a = a ++ b
  | [], a, _ => by simp
  | hd :: tl, a, h => by
    have hfresh : ∀ p ∈ a, p.1 ≠ hd.1 := by
      intro p hp
      have h' := h
      rw [List.map_append] at h'
      rcases (List.nodup_append.mp h') with ⟨_, _, hdisj⟩
      intro hEq
      exact hdisj (hEq ▸ List.mem_map_of_mem Prod.fst hp)
        (by simp)
    have hstep : List.foldl (fun d p => dictInsert d p.1 p.2) a (hd :: tl) =
        List.foldl (fun d p => dictInsert d p.1 p.2) (dictInsert a hd.1 hd.2) tl := rfl
    rw [hstep, dictInsert_fresh a hd.1 hd.2 hfresh]
    have hre : ((a ++ [(hd.1, hd.2)]) ++ tl).map Prod.fst |>.Nodup := by
      have : (a ++ [(hd.1, hd.2)]) ++ tl = a ++ (hd :: tl) := by
        simp [List.append_assoc]
      rw [this]
      exact h
    have := mkDict_go tl (a ++ [(hd.1, hd.2)]) hre
    rw [this]
    simp [List.append_assoc]

/-- A dict literal whose keys are distinct is just its entry sequence. -/
theorem mkDict_eq_self {α : Type} (entries : List (String × α))
    (h : (entries.map Prod.fst).Nodup) : mkDict entries = entries := by
  have := mkDict_go entries [] (by simpa using h)
  simpa [mkDict] using this
/-- The keys of `swords_table` are distinct, so the dict is its own entry sequence. -/
theorem swords_table_eq : swords_table = swords_table_lit := by
  have h : swords_table_src = swords_table_lit := rfl
  rw [show swords_table = mkDict swords_table_src from rfl, h]
  exact mkDict_eq_self _ (nodup_of_sortedB_keys _ (by decide))

/-- The keys of `armors_table` are distinct, so the dict is its own entry sequence. -/
theorem armors_table_eq : armors_table = armors_table_lit := by
  have h : armors_table_src = armors_table_lit := rfl
  rw [show armors_table = mkDict armors_table_src from rfl, h]
  exact mkDict_eq_self _ (nodup_of_sortedB_keys _ (by decide))

/-- The keys of `castable_magic_table` are distinct, so the dict is its own entry sequence. -/
theorem castable_magic_table_eq : castable_magic_table = castable_magic_table_lit := by
  have h : castable_magic_table_src = castable_magic_table_lit := rfl
  rw [show castable_magic_table = mkDict castable_magic_table_src from rfl, h]
  exact mkDict_eq_self _ (nodup_of_sortedB_keys _ (by decide))

/-- The keys of `magic_table` are distinct, so the dict is its own entry sequence. -/
theorem magic_table_eq : magic_table = magic_table_lit := by
  have h : magic_table_src = magic_table_lit := by
    unfold magic_table_src magic_table_lit
    rw [castable_magic_table_eq]
  rw [show magic_table = mkDict magic_table_src from rfl, h]
  exact mkDict_eq_self _ (nodup_of_sortedB_keys _ (by decide))

/-- The keys of `emblems_table` are distinct, so the dict is its own entry sequence. -/
theorem emblems_table_eq : emblems_table = emblems_table_lit := by
  have h : emblems_table_src = emblems_table_lit := rfl
  rw [show emblems_table = mkDict emblems_table_src from rfl, h]
  exact mkDict_eq_self _ (nodup_of_sortedB_keys _ (by decide))

/-- The keys of `redhots_table` are distinct, so the dict is its own entry sequence. -/
theorem redhots_table_eq : redhots_table = redhots_table_lit := by
  have h : redhots_table_src = redhots_table_lit := rfl
  rw [show redhots_table = mkDict redhots_table_src from rfl, h]
  exact mkDict_eq_self _ (nodup_of_sortedB_keys _ (by decide))

/-- The keys of `stones_table` are distinct, so the dict is its own entry sequence. -/
theorem stones_table_eq : stones_table = stones_table_lit := by
  have h : stones_table_src = stones_table_lit := rfl
  rw [show stones_table = mkDict stones_table_src from rfl, h]
  exact mkDict_eq_self _ (nodup_of_sortedB_keys _ (by decide))

/-- The keys of `inventory_items_table` are distinct, so the dict is its own entry sequence. -/
theorem inventory_items_table_eq : inventory_items_table = inventory_items_table_lit := by
  have h : inventory_items_table_src = inventory_items_table_lit := by
    unfold inventory_items_table_src inventory_items_table_lit
    rw [emblems_table_eq, redhots_table_eq, stones_table_eq]
  rw [show inventory_items_table = mkDict inventory_items_table_src from rfl, h]
  exact mkDict_eq_self _ (nodup_of_sortedB_keys _ (by decide))

/-- The keys of `misc_table` are distinct, so the dict is its own entry sequence. -/
theorem misc_table_eq : misc_table = misc_table_lit := by
  have h : misc_table_src = misc_table_lit := rfl
  rw [show misc_table = mkDict misc_table_src from rfl, h]
  exact mkDict_eq_self _ (nodup_of_sortedB_keys _ (by decide))

/-- The keys of `items_table` are distinct, so the dict is its own entry sequence. -/
theorem items_table_eq : items_table = items_table_lit := by
  have h : items_table_src = items_table_lit := by
    unfold items_table_src items_table_lit
    rw [swords_table_eq, armors_table_eq, magic_table_eq, inventory_items_table_eq]
  rw [show items_table = mkDict items_table_src from rfl, h]
  exact mkDict_eq_self _ (nodup_of_sortedB_keys _ (by decide))

/-- The keys of `npc_release_table` are distinct, so the dict is its own entry sequence. -/
theorem npc_release_table_eq : npc_release_table = npc_release_table_lit := by
  have h : npc_release_table_src = npc_release_table_lit := rfl
  rw [show npc_release_table = mkDict npc_release_table_src from rfl, h]
  exact mkDict_eq_self _ (nodup_of_sortedB_keys _ (by decide))

/-- The keys of `souls_table` are distinct, so the dict is its own entry sequence. -/
theorem souls_table_eq : souls_table = souls_table_lit := by
  have h : souls_table_src = souls_table_lit := rfl
  rw [show souls_table = mkDict souls_table_src from rfl, h]
  exact mkDict_eq_self _ (nodup_of_sortedB_keys _ (by decide))

/-- The keys of `special_table` are distinct, so the dict is its own entry sequence. -/
theorem special_table_eq : special_table = special_table_lit := by
  have h : special_table_src = special_table_lit := rfl
  rw [show special_table = mkDict special_table_src from rfl, h]
  exact mkDict_eq_self _ (nodup_of_sortedB_keys _ (by decide))

/-- The keys of `all_items_table` are distinct, so the dict is its own entry sequence. -/
theorem all_items_table_eq : all_items_table = all_items_table_lit := by
  have h : all_items_table_src = all_items_table_lit := by
    unfold all_items_table_src all_items_table_lit
    rw [items_table_eq, misc_table_eq, npc_release_table_eq, souls_table_eq, special_table_eq]
  rw [show all_items_table = mkDict all_items_table_src from rfl, h]
  exact mkDict_eq_self _ (nodup_of_sortedB_keys _ (by decide))
/-- `getRule` is the conjunction of the conditions of all nodes of the
chain. -/
theorem getRule_eq_all : (c : RuleData) → (p : Nat) → (s : CollectionState) →
    getRule c p s = (chainNodes c).all (fun n => nodeHolds n p s)
  | RuleData.base none, _, _ => by simp [getRule, chainNodes, nodeHolds]
  | RuleData.base (some n), p, s => by
    have ih := getRule_eq_all n p s
    simp [getRule, chainNodes, nodeHolds, ih]
  | RuleData.FlagRuleData none _, _, _ => by simp [getRule, chainNodes, nodeHolds]
  | RuleData.FlagRuleData (some n) _, p, s => by
    have ih := getRule_eq_all n p s
    simp [getRule, chainNodes, nodeHolds, ih]
  | RuleData.HasAnyRuleData none _, _, _ => by simp [getRule, chainNodes, nodeHolds]
  | RuleData.HasAnyRuleData (some n) _, p, s => by
    have ih := getRule_eq_all n p s
    simp [getRule, chainNodes, nodeHolds, ih]
  | RuleData.HasAllRuleData none _, _, _ => by simp [getRule, chainNodes, nodeHolds]
  | RuleData.HasAllRuleData (some n) _, p, s => by
    have ih := getRule_eq_all n p s
    simp [getRule, chainNodes, nodeHolds, ih]
  | RuleData.CanReachLocationRuleData none _, _, _ => by simp [getRule, chainNodes, nodeHolds]
  | RuleData.CanReachLocationRuleData (some n) _, p, s => by
    have ih := getRule_eq_all n p s
    simp [getRule, chainNodes, nodeHolds, ih]
  | RuleData.CanReachRegionRule none _, _, _ => by simp [getRule, chainNodes, nodeHolds]
  | RuleData.CanReachRegionRule (some n) _, p, s => by
    have ih := getRule_eq_all n p s
    simp [getRule, chainNodes, nodeHolds, ih]

/-- Under the standard evaluator table the instrumented evaluation never
raises and agrees with the compiled predicate. -/
theorem evalE_pure_eq : (c : RuleData) → (p : Nat) → (s : CollectionState) →
    evalE pureFlagEnv c p s = Except.ok (getRule c p s)
  | RuleData.base none, _, _ => rfl
  | RuleData.base (some n), p, s => by
    have ih := evalE_pure_eq n p s
    simp [evalE, getRule, ih]
  | RuleData.FlagRuleData none _, _, _ => rfl
  | RuleData.FlagRuleData (some n) f, p, s => by
    have ih := evalE_pure_eq n p s
    cases hr : rule_for_flag f s p <;> simp [evalE, getRule, pureFlagEnv, hr, ih]
  | RuleData.HasAnyRuleData none _, _, _ => rfl
  | RuleData.HasAnyRuleData (some n) items, p, s => by
    have ih := evalE_pure_eq n p s
    cases hr : s.has_any items p <;> simp [evalE, getRule, hr, ih]
  | RuleData.HasAllRuleData none _, _, _ => rfl
  | RuleData.HasAllRuleData (some n) items, p, s => by
    have ih := evalE_pure_eq n p s
    cases hr : s.has_all items p <;> simp [evalE, getRule, hr, ih]
  | RuleData.CanReachLocationRuleData none _, _, _ => rfl
  | RuleData.CanReachLocationRuleData (some n) spot, p, s => by
    have ih := evalE_pure_eq n p s
    cases hr : s.can_reach_location spot p <;> simp [evalE, getRule, hr, ih]
  | RuleData.CanReachRegionRule none _, _, _ => rfl
  | RuleData.CanReachRegionRule (some n) spot, p, s => by
    have ih := evalE_pure_eq n p s
    cases hr : s.can_reach_region spot p <;> simp [evalE, getRule, hr, ih]

/-- C1: the catalog code is injective over the static master table — any
two records of `all_items_table` whose (id, operand) pairs differ get
different Archipelago codes — and it is deterministic: the code depends on
nothing but the (id, operand) pair. -/
theorem C1_code_injective :
    (∀ d1 ∈ all_items_table.map Prod.snd, ∀ d2 ∈ all_items_table.map Prod.snd,
        (d1.id, d1.operand) ≠ (d2.id, d2.operand) → d1.code ≠ d2.code) ∧
    (∀ d1 d2 : ItemData, d1.id = d2.id → d1.operand = d2.operand → d1.code = d2.code) := by
  constructor
  · have hnd : ((all_items_table_lit.map Prod.snd).map ItemData.code).Nodup := by
      rw [List.map_map]
      exact nodup_of_sortedB _ (by decide)
    intro d1 h1 d2 h2 hne hcode
    rw [all_items_table_eq] at h1 h2
    exact hne (by rw [List.inj_on_of_nodup_map hnd h1 h2 hcode])
  · intro d1 d2 h1 h2
    simp [ItemData.code, h1, h2]

/-- Witness for C1 at two concrete catalog records. -/
theorem C1_code_injective_witness :
    ((ItemData.mk ItemID.LIFESWORD 0 IC.progression).id,
        (ItemData.mk ItemID.LIFESWORD 0 IC.progression).operand) ≠
      ((ItemData.mk ItemID.SOUL 0 IC.progression).id,
        (ItemData.mk ItemID.SOUL 0 IC.progression).operand) ∧
    (ItemData.mk ItemID.LIFESWORD 0 IC.progression).code ≠
      (ItemData.mk ItemID.SOUL 0 IC.progression).code := by
  refine ⟨by decide, ?_⟩
  exact C1_code_injective.1 _ (by rw [all_items_table_eq]; decide) _
    (by rw [all_items_table_eq]; decide) (by decide)

/-- C2 counterexample: for the currency record (gems) the code ignores the
operand entirely, so no base-plus-offset-plus-operand decomposition of the
claimed shape can exist for the currency kind. -/
theorem C2_counterexample :
    ((dictLookup misc_table ItemName.GEMS).duplicate 999).code =
      (dictLookup misc_table ItemName.GEMS).code ∧
    ¬ (∃ off : Nat, ∀ v : Nat,
        ((dictLookup misc_table ItemName.GEMS).duplicate v).code = BASE_ID + off + v) := by
  constructor
  · decide
  · rintro ⟨off, hoff⟩
    have h0 := hoff 0
    have h1 := hoff 1
    have e0 : ((dictLookup misc_table ItemName.GEMS).duplicate 0).code = 5066 := by decide
    have e1 : ((dictLookup misc_table ItemName.GEMS).duplicate 1).code = 5066 := by decide
    rw [e0] at h0
    rw [e1] at h1
    simp [BASE_ID] at h0 h1
    omega

/-- C2 (amended): the code adds the operand for the NPC-release (lair) and
soul-upgrade kinds, with their category offsets, and is the base offset
plus the kind identifier for every other kind — including the gems/exp
currency kinds, whose operand does not enter the code. -/
theorem C2_code_formula :
    ∀ d : ItemData,
      (d.id = ItemID.LAIR_RELEASE → d.code = BASE_ID + LAIR_ID_OFFSET + d.operand) ∧
      (d.id = ItemID.SOUL → d.code = BASE_ID + SOUL_OFFSET + d.operand) ∧
      (d.id ≠ ItemID.LAIR_RELEASE → d.id ≠ ItemID.SOUL → d.code = BASE_ID + d.id) ∧
      ((d.id = ItemID.GEMS ∨ d.id = ItemID.EXP) → d.code = BASE_ID + d.id) := by
  intro d
  refine ⟨?_, ?_, ?_, ?_⟩
  · intro h
    simp [ItemData.code, h]
  · intro h
    simp [ItemData.code, h, ItemID.SOUL, ItemID.LAIR_RELEASE]
  · intro h1 h2
    simp [ItemData.code, h1, h2]
  · rintro (h | h) <;>
      simp [ItemData.code, h, ItemID.GEMS, ItemID.EXP, ItemID.LAIR_RELEASE, ItemID.SOUL]

/-- Witness for C2 (amended) at one record of each branch. -/
theorem C2_code_formula_witness :
    (ItemData.mk ItemID.SOUL 4 IC.progression).code = BASE_ID + SOUL_OFFSET + 4 ∧
    (ItemData.mk ItemID.GEMS 100 IC.filler).code = BASE_ID + ItemID.GEMS ∧
    (ItemData.mk ItemID.LAIR_RELEASE 7 IC.filler).code = BASE_ID + LAIR_ID_OFFSET + 7 :=
  ⟨(C2_code_formula _).2.1 rfl, (C2_code_formula _).2.2.2 (Or.inl rfl),
    (C2_code_formula _).1 rfl⟩

/-- C3 counterexample: the dict merge used to build the tables does not
fail on a duplicate key — it silently overwrites (the later record wins)
and the merged length falls short of the sum of the input lengths. -/
theorem C3_counterexample :
    pyMerge [(ItemName.MEDICALHERB, ItemData.mk ItemID.MEDICALHERB 0 IC.filler)]
        [(ItemName.MEDICALHERB, ItemData.mk ItemID.NOTHING 0 IC.filler)] =
      [(ItemName.MEDICALHERB, ItemData.mk ItemID.NOTHING 0 IC.filler)] ∧
    (pyMerge [(ItemName.MEDICALHERB, ItemData.mk ItemID.MEDICALHERB 0 IC.filler)]
        [(ItemName.MEDICALHERB, ItemData.mk ItemID.NOTHING 0 IC.filler)]).length ≠
      [(ItemName.MEDICALHERB, ItemData.mk ItemID.MEDICALHERB 0 IC.filler)].length +
        [(ItemName.MEDICALHERB, ItemData.mk ItemID.NOTHING 0 IC.filler)].length := by
  constructor
  · decide
  · decide

/-- C3 (amended): merging never raises — a duplicate name would be silently
overwritten by the later category — but the actual category tables are
pairwise disjoint, so the master table length equals the sum of the
category table lengths and no overwrite occurs. -/
theorem C3_master_table_length :
    all_items_table.length =
      items_table.length + misc_table.length + npc_release_table.length +
        souls_table.length + special_table.length ∧
    items_table.length =
      swords_table.length + armors_table.length + magic_table.length +
        inventory_items_table.length ∧
    (all_items_table.map Prod.fst).Nodup ∧
    (∀ (k : String) (v1 v2 : ItemData), pyMerge [(k, v1)] [(k, v2)] = [(k, v2)]) := by
  refine ⟨?_, ?_, ?_, ?_⟩
  · rw [all_items_table_eq, items_table_eq, misc_table_eq, npc_release_table_eq,
      souls_table_eq, special_table_eq]
    decide
  · rw [items_table_eq, swords_table_eq, armors_table_eq, magic_table_eq,
      inventory_items_table_eq]
    decide
  · rw [all_items_table_eq]
    exact nodup_of_sortedB_keys _ (by decide)
  · intro k v1 v2
    simp [pyMerge, dictInsert]

/-- C4: the HAS_MAGIC evaluator is true exactly when the magician
soul-upgrade is held together with at least one of the 7 offensive spells;
each conjunct alone is insufficient. -/
theorem C4_has_magic :
    magic_items.length = 7 ∧
    (∀ (s : CollectionState) (p : Nat),
        has_magic s p = true ↔
          (s.has ItemName.SOUL_MAGICIAN p = true ∧ ∃ i ∈ magic_items, s.has i p = true)) ∧
    (∀ (s : CollectionState) (p : Nat),
        s.has ItemName.SOUL_MAGICIAN p = false → has_magic s p = false) ∧
    (∀ (s : CollectionState) (p : Nat),
        s.has_any magic_items p = false → has_magic s p = false) := by
  refine ⟨rfl, ?_, ?_, ?_⟩
  · intro s p
    simp [has_magic, CollectionState.has_any, List.any_eq_true, Bool.and_eq_true]
  · intro s p h
    simp [has_magic, h]
  · intro s p h
    simp [has_magic, h]

/-- Witness for C4 on a state with a spell but no soul-upgrade, and a state
with the soul-upgrade but no spell. -/
theorem C4_has_magic_witness :
    ((⟨fun i _ => if i = ItemName.FLAMEBALL then 1 else 0,
        fun _ _ => false, fun _ _ => false, fun _ => 0⟩ : CollectionState).has
      ItemName.SOUL_MAGICIAN 1 = false) ∧
    has_magic
      (⟨fun i _ => if i = ItemName.FLAMEBALL then 1 else 0,
        fun _ _ => false, fun _ _ => false, fun _ => 0⟩ : CollectionState) 1 = false ∧
    ((⟨fun i _ => if i = ItemName.SOUL_MAGICIAN then 1 else 0,
        fun _ _ => false, fun _ _ => false, fun _ => 0⟩ : CollectionState).has_any
      magic_items 1 = false) ∧
    has_magic
      (⟨fun i _ => if i = ItemName.SOUL_MAGICIAN then 1 else 0,
        fun _ _ => false, fun _ _ => false, fun _ => 0⟩ : CollectionState) 1 = false := by
  refine ⟨by decide, ?_, by decide, ?_⟩
  · exact C4_has_magic.2.2.1 _ 1 (by decide)
  · exact C4_has_magic.2.2.2 _ 1 (by decide)

/-- C5: chain evaluation is left-to-right short-circuit conjunction: the
compiled predicate is true iff every node of the chain holds; the
instrumented evaluation agrees with the compiled predicate under the
standard evaluators; and as soon as a flag node's evaluator returns false,
or a has-all node's membership test is false, the tail of the chain is
never evaluated — the result is `ok false` even if every evaluator in the
tail raises. -/
theorem C5_chain_conjunction :
    (∀ (c : RuleData) (p : Nat) (s : CollectionState),
        getRule c p s = true ↔ ∀ n ∈ chainNodes c, nodeHolds n p s = true) ∧
    (∀ (c : RuleData) (p : Nat) (s : CollectionState),
        evalE pureFlagEnv c p s = Except.ok (getRule c p s)) ∧
    (∀ (env : FlagEnv) (p : Nat) (s : CollectionState) (flag : RuleFlag)
        (next : Option RuleData),
        env flag s p = Except.ok false →
        evalE env (RuleData.FlagRuleData next flag) p s = Except.ok false) ∧
    (∀ (env : FlagEnv) (p : Nat) (s : CollectionState) (items : List String)
        (next : Option RuleData),
        s.has_all items p = false →
        evalE env (RuleData.HasAllRuleData next items) p s = Except.ok false) := by
  refine ⟨?_, evalE_pure_eq, ?_, ?_⟩
  · intro c p s
    rw [getRule_eq_all, List.all_eq_true]
  · intro env p s flag next h
    cases next <;> simp [evalE, h]
  · intro env p s items next h
    cases next <;> simp [evalE, h]

/-- Witness for C5: a chain whose head has-all node is false followed by a
flag node whose evaluator always raises still evaluates to `ok false`. -/
theorem C5_chain_conjunction_witness :
    ((⟨fun _ _ => 0, fun _ _ => false, fun _ _ => false, fun _ => 0⟩ :
        CollectionState).has_all [ItemName.APASS] 1 = false) ∧
    evalE (fun _ _ _ => Except.error "raised")
      (RuleData.HasAllRuleData
        (some (RuleData.FlagRuleData none RuleFlag.CAN_CUT_METAL)) [ItemName.APASS]) 1
      (⟨fun _ _ => 0, fun _ _ => false, fun _ _ => false, fun _ => 0⟩ : CollectionState) =
      Except.ok false := by
  refine ⟨by decide, ?_⟩
  exact C5_chain_conjunction.2.2.2 (fun _ _ _ => Except.error "raised") 1 _ [ItemName.APASS]
    (some (RuleData.FlagRuleData none RuleFlag.CAN_CUT_METAL)) (by decide)

/-- C6: a location name absent from the dependency table compiles to the
always-true predicate; a Flag(NONE) node is interchangeable with a bare
base node in any position; a bare node is transparent to its tail; and the
bare tail-less node is always true. -/
theorem C6_absent_and_none :
    (∀ (name : String) (p : Nat),
        name ∉ location_dependencies.map Prod.fst →
        ∀ s : CollectionState, get_rule_for_location name p s = true) ∧
    (∀ (next : Option RuleData) (p : Nat) (s : CollectionState),
        getRule (RuleData.FlagRuleData next RuleFlag.NONE) p s =
          getRule (RuleData.base next) p s) ∧
    (∀ (n : RuleData) (p : Nat) (s : CollectionState),
        getRule (RuleData.base (some n)) p s = getRule n p s) ∧
    (∀ (p : Nat) (s : CollectionState), getRule (RuleData.base none) p s = true) := by
  refine ⟨?_, ?_, ?_, ?_⟩
  · intro name p hname s
    have hfind : location_dependencies.find? (fun q => q.1 = name) = none := by
      apply List.find?_eq_none.mpr
      intro x hx
      simp only [decide_eq_true_eq]
      intro hEq
      exact hname (hEq ▸ List.mem_map_of_mem Prod.fst hx)
    unfold get_rule_for_location dictGet
    rw [hfind]
    rfl
  · intro next p s
    cases next <;> simp [getRule, rule_for_flag, no_requirement]
  · intro n p s
    simp [getRule]
  · intro p s
    rfl

/-- Witness for C6 at a concrete absent location name. -/
theorem C6_absent_and_none_witness :
    ("bogus" ∉ location_dependencies.map Prod.fst) ∧
    get_rule_for_location "bogus" 7
      (⟨fun _ _ => 0, fun _ _ => false, fun _ _ => false, fun _ => 0⟩ : CollectionState) =
      true := by
  refine ⟨by decide, ?_⟩
  exact C6_absent_and_none.1 "bogus" 7 (by decide) _
/-- Instantiating a batch of reward instances from table entries keeps the
entry names, in order. -/
theorem map_name_init (l : List (String × ItemData)) (p : Nat) :
    (l.map (fun kv => SoulBlazerItem.init kv.1 p kv.2)).map SoulBlazerItem.name =
      l.map Prod.fst := by
  induction l with
  | nil => rfl
  | cons hd tl ih =>
    simp only [List.map_cons, ih]
    rfl

/-- Overwriting operands over a value list records exactly those values. -/
theorem map_operand_setop (l : List Nat) (item : SoulBlazerItem) :
    (l.map (fun v => item.set_operand v)).map SoulBlazerItem.operand = l := by
  induction l with
  | nil => rfl
  | cons hd tl ih =>
    simp only [List.map_cons, ih]
    rfl

/-- Overwriting operands over a value list keeps the template name. -/
theorem map_name_setop (l : List Nat) (item : SoulBlazerItem) :
    (l.map (fun v => item.set_operand v)).map SoulBlazerItem.name =
      List.replicate l.length item.name := by
  induction l with
  | nil => rfl
  | cons hd tl ih =>
    simp only [List.map_cons, ih, List.length_cons, List.replicate_succ]
    rfl

/-- With the vanilla option the gem pool is the vanilla constant list and
the random source is untouched. -/
theorem create_gem_pool_vanilla (p : Nat) (rng : Rng) (gi ei : List SoulBlazerItem) :
    create_gem_pool ⟨p, GemExpPool.vanilla, rng, gi, ei⟩ =
      (gem_values_vanilla, ⟨p, GemExpPool.vanilla, rng, gi, ei⟩) := rfl

/-- With the vanilla option the exp pool is the vanilla constant list and
the random source is untouched. -/
theorem create_exp_pool_vanilla (p : Nat) (rng : Rng) (gi ei : List SoulBlazerItem) :
    create_exp_pool ⟨p, GemExpPool.vanilla, rng, gi, ei⟩ =
      (exp_values_vanilla, ⟨p, GemExpPool.vanilla, rng, gi, ei⟩) := rfl

/-- C7: with the vanilla configuration the pool holds one instance per
unique named reward, then 20 herbs, 7 bottles, 3 nothings, one gem
instance per vanilla gem value and one exp instance per vanilla exp value
(21 and 13), with the gem and exp operands equal, in order, to the vanilla
constant lists. -/
theorem C7_vanilla_pool (p : Nat) (rng : Rng) :
    ((create_itempool ⟨p, GemExpPool.vanilla, rng, [], []⟩).1).length =
      unique_items_table.length + herb_count + bottle_count + nothing_count +
        gem_values_vanilla.length + exp_values_vanilla.length ∧
    ((create_itempool ⟨p, GemExpPool.vanilla, rng, [], []⟩).1).map SoulBlazerItem.name =
      unique_items_table.map Prod.fst ++
        List.replicate herb_count ItemName.MEDICALHERB ++
        List.replicate bottle_count ItemName.STRANGEBOTTLE ++
        List.replicate nothing_count ItemName.NOTHING ++
        List.replicate gem_values_vanilla.length ItemName.GEMS ++
        List.replicate exp_values_vanilla.length ItemName.EXP ∧
    ((create_itempool ⟨p, GemExpPool.vanilla, rng, [], []⟩).2).gem_items.map
        SoulBlazerItem.operand = gem_values_vanilla ∧
    ((create_itempool ⟨p, GemExpPool.vanilla, rng, [], []⟩).2).exp_items.map
        SoulBlazerItem.operand = exp_values_vanilla ∧
    gem_values_vanilla.length = 21 ∧ exp_values_vanilla.length = 13 ∧
    herb_count = 20 ∧ bottle_count = 7 ∧ nothing_count = 3 := by
  refine ⟨?_, ?_, ?_, ?_, rfl, rfl, rfl, rfl, rfl⟩
  · simp only [create_itempool, create_gem_pool_vanilla, create_exp_pool_vanilla]
    simp only [List.length_append, List.length_map, List.length_replicate]
  · simp only [create_itempool, create_gem_pool_vanilla, create_exp_pool_vanilla]
    simp only [List.map_append]
    rw [map_name_init, map_name_setop, map_name_setop, List.map_replicate,
      List.map_replicate, List.map_replicate]
    rfl
  · simp only [create_itempool, create_gem_pool_vanilla, create_exp_pool_vanilla]
    exact map_operand_setop gem_values_vanilla _
  · simp only [create_itempool, create_gem_pool_vanilla, create_exp_pool_vanilla]
    exact map_operand_setop exp_values_vanilla _

/-- Every value drawn by the modelled `randint` loop lies in the requested
closed interval. -/
theorem randints_bounds : ∀ (n : Nat) (r : Rng) (lo hi : Nat), lo ≤ hi →
    ∀ v ∈ (Rng.randints r n lo hi).1, lo ≤ v ∧ v ≤ hi
  | 0, r, lo, hi, _, v, hv => absurd hv (by simp [Rng.randints])
  | n + 1, r, lo, hi, hle, v, hv => by
    simp only [Rng.randints] at hv
    rcases List.mem_cons.mp hv with h | h
    · subst h
      have hm : r.seq r.pos % (hi + 1 - lo) < hi + 1 - lo :=
        Nat.mod_lt _ (by omega)
      simp only [Rng.randint]
      omega
    · exact randints_bounds n _ lo hi hle v h

/-- C8: with the randomized-range configuration, the generated value
sequences depend only on the random source (two invocations over the same
seeded source agree, whatever the rest of the world holds), every gem
value lies in 1–999 and every exp value lies in 1–9999. -/
theorem C8_random_range :
    (∀ (p1 p2 : Nat) (r : Rng) (g1 e1 g2 e2 : List SoulBlazerItem),
        (create_gem_pool ⟨p1, GemExpPool.random_range, r, g1, e1⟩).1 =
          (create_gem_pool ⟨p2, GemExpPool.random_range, r, g2, e2⟩).1 ∧
        (create_exp_pool ⟨p1, GemExpPool.random_range, r, g1, e1⟩).1 =
          (create_exp_pool ⟨p2, GemExpPool.random_range, r, g2, e2⟩).1) ∧
    (∀ w : SoulBlazerWorld, w.gem_exp_pool = GemExpPool.random_range →
        (∀ v ∈ (create_gem_pool w).1, 1 ≤ v ∧ v ≤ 999) ∧
        (∀ v ∈ (create_exp_pool w).1, 1 ≤ v ∧ v ≤ 9999)) := by
  constructor
  · intro p1 p2 r g1 e1 g2 e2
    exact ⟨rfl, rfl⟩
  · intro w hw
    obtain ⟨p, pool, r, gi, ei⟩ := w
    cases hw
    constructor
    · intro v hv
      exact randints_bounds gem_values_vanilla.length r 1 999 (by decide) v hv
    · intro v hv
      exact randints_bounds exp_values_vanilla.length r 1 9999 (by decide) v hv

/-- Witness for C8 on a concrete seeded source. -/
theorem C8_random_range_witness :
    (SoulBlazerWorld.mk 1 GemExpPool.random_range ⟨fun k => k * 37 + 11, 0⟩ []
        []).gem_exp_pool = GemExpPool.random_range ∧
    12 ∈ (create_gem_pool
        (SoulBlazerWorld.mk 1 GemExpPool.random_range ⟨fun k => k * 37 + 11, 0⟩ [] [])).1 ∧
    1 ≤ 12 ∧ 12 ≤ 999 := by
  refine ⟨rfl, by decide, ?_⟩
  exact (C8_random_range.2
    (SoulBlazerWorld.mk 1 GemExpPool.random_range ⟨fun k => k * 37 + 11, 0⟩ [] [])
    rfl).1 12 (by decide)

/-- C9: overwriting an operand is full copy-on-write: `duplicate` builds a
new record with the new operand and the other fields unchanged (a new
value, distinct from the original whenever the operand actually changes),
and `set_operand` rebinds the item's record to such a duplicate, leaving
the name, player and base-class fields alone. -/
theorem C9_copy_on_write :
    ∀ (d : ItemData) (v : Nat) (item : SoulBlazerItem),
      (d.duplicate v).operand = v ∧
      (d.duplicate v).id = d.id ∧
      (d.duplicate v).classification = d.classification ∧
      ((d.duplicate v = d) ↔ v = d.operand) ∧
      (item.set_operand v).operand = v ∧
      (item.set_operand v).id = item.id ∧
      (item.set_operand v).itemData = item.itemData.duplicate v ∧
      (item.set_operand v).name = item.name ∧
      (item.set_operand v).player = item.player ∧
      (item.set_operand v).classification = item.classification := by
  intro d v item
  refine ⟨rfl, rfl, rfl, ?_, rfl, rfl, rfl, rfl, rfl, rfl⟩
  cases d
  simp [ItemData.duplicate, ItemData.mk.injEq, eq_comm]

/-- C10: assignment through the `operand` or `operand_bcd` property setter
hits the frozen `ItemData` record and raises, producing no updated item;
`set_operand` is the operand-changing operation that succeeds. -/
theorem C10_setters_raise :
    ∀ (item : SoulBlazerItem) (value : Nat),
      item.operandSetter value = Except.error "FrozenInstanceError" ∧
      item.operandBcdSetter value = Except.error "FrozenInstanceError" ∧
      (∀ r : SoulBlazerItem, item.operandSetter value ≠ Except.ok r) ∧
      (item.set_operand value).operand = value ∧
      (item.set_operand value).itemData = item.itemData.duplicate value := by
  intro item value
  refine ⟨rfl, rfl, ?_, rfl, rfl⟩
  intro r h
  exact Except.noConfusion h

/-- Witness for C9 at a concrete currency record: the duplicate carries the
new operand and is a different value from the original. -/
theorem C9_copy_on_write_witness :
    ((ItemData.mk ItemID.GEMS 100 IC.filler).duplicate 999).operand = 999 ∧
    ¬ ((ItemData.mk ItemID.GEMS 100 IC.filler).duplicate 999 =
        ItemData.mk ItemID.GEMS 100 IC.filler) := by
  refine ⟨(C9_copy_on_write (ItemData.mk ItemID.GEMS 100 IC.filler) 999
    (SoulBlazerItem.init ItemName.GEMS 1 (ItemData.mk ItemID.GEMS 100 IC.filler))).1, ?_⟩
  intro h
  exact absurd ((C9_copy_on_write (ItemData.mk ItemID.GEMS 100 IC.filler) 999
    (SoulBlazerItem.init ItemName.GEMS 1 (ItemData.mk ItemID.GEMS 100 IC.filler))).2.2.2.1.mp h)
    (by decide)

/-- Witness for C10 at a concrete item. -/
theorem C10_setters_raise_witness :
    (SoulBlazerItem.init ItemName.GEMS 1 (ItemData.mk ItemID.GEMS 100 IC.filler)).operandSetter
        7 = Except.error "FrozenInstanceError" ∧
    ((SoulBlazerItem.init ItemName.GEMS 1
        (ItemData.mk ItemID.GEMS 100 IC.filler)).set_operand 7).operand = 7 :=
  ⟨(C10_setters_raise (SoulBlazerItem.init ItemName.GEMS 1
      (ItemData.mk ItemID.GEMS 100 IC.filler)) 7).1,
    (C10_setters_raise (SoulBlazerItem.init ItemName.GEMS 1
      (ItemData.mk ItemID.GEMS 100 IC.filler)) 7).2.2.2.1⟩

end SoulBlazer
